import Mathlib

/-!
# kpack-cli: cluster stack factory, fake relocator and cluster store commands

A shallow embedding of

* `pkg/clusterstack/factory.go` (`Factory.MakeStack`, `Factory.validate`),
* `pkg/image/fakes/fake_relocator.go` (`Relocator.Relocate`),
* `pkg/commands/clusterstack/create.go`, `pkg/commands/clusterstore/{create,add,save}.go`
  (`create`, `update` and the `RunE` bodies),
* `pkg/commands/build/status.go` (`findBuild`, `displayBuildStatus` and the `RunE` body),

together with the properties of these functions that the specification states. What these
files use from the Go standard library is embedded too (`path.Join`); what they use from other
libraries or from files of the repository that are not at hand is a parameter of the
embedding. The additive merge of the store factory (`AddToStore`), which only its callers
show, is modelled from the specification.

Go conventions used throughout:

* a Go result `(T, error)` of a function of this repository is a pair whose second
  component is `Option Error` (`none` is the nil error); a nil-able pointer is an `Option`;
* a collaborator (an interface value or a library function) whose value the code reads
  only when its error is nil returns `Except Error T`;
* collaborators with side effects are state-passing functions over an arbitrary state
  type `σ`; every call to one of them is appended to a call log.
-/

namespace Kpack

/-! ## Values -/

/-- A Go `error` value, identified by its message. -/
structure Error where
  msg : String
  deriving DecidableEq, Repr

/-- The type `v1.Hash` of go-containerregistry. -/
structure Hash where
  Algorithm : String
  Hex : String
  deriving DecidableEq, Repr

/-- The method `Hash.String`: algorithm and hex joined by a colon. -/
def Hash.String (h : Hash) : String :=
  h.Algorithm ++ ":" ++ h.Hex

deriving instance DecidableEq for Except

/-- The interface `v1.Image`, reduced to what the embedded code can observe: the result of
`Digest()` and the labels of the image configuration. -/
structure Image where
  Digest : Except Error Hash
  Labels : List (String × String)
  deriving DecidableEq, Repr

/-- The options of `name.ParseReference`. -/
inductive NameOption where
  | WeakValidation
  | StrictValidation
  deriving DecidableEq, Repr

/-- The interface `name.Reference`: `Context().RegistryStr()`, `Context().RepositoryStr()`
and `Identifier()` (the tag or the digest). -/
structure Reference where
  RegistryStr : String
  RepositoryStr : String
  Identifier : String
  deriving DecidableEq, Repr

/-- The type of the library function `name.ParseReference`. -/
abbrev ReferenceParser := String → List NameOption → Except Error Reference

/-! ## `path.Join` of the Go standard library -/

/-- The loop state of `path.Clean`: the read index `r`, the bytes written so far (`out.w` is
the length of `out`) and the index `dotdot` below which `..` must not backtrack. -/
structure CleanState where
  r : Nat
  out : List Char
  dotdot : Nat
  deriving DecidableEq, Repr

/-- The inner loop `for out.w > dotdot && out.index(out.w) != '/' { out.w-- }`, started at the
write index `w`; returns the final write index. -/
def Clean.backtrack (out : List Char) (dotdot : Nat) : Nat → Nat
  | 0 => 0
  | w + 1 =>
    if decide (w + 1 > dotdot) && (out[w + 1]? != some '/') then Clean.backtrack out dotdot w
    else w + 1

/-- One iteration of the `for r < n` loop of `path.Clean`. -/
def Clean.step (path : List Char) (rooted : Bool) (s : CleanState) : CleanState :=
  let n := path.length
  if path[s.r]? == some '/' then
    -- empty path element
    { s with r := s.r + 1 }
  else if path[s.r]? == some '.' && (s.r + 1 == n || path[s.r + 1]? == some '/') then
    -- . element
    { s with r := s.r + 1 }
  else if path[s.r]? == some '.' && path[s.r + 1]? == some '.' &&
      (s.r + 2 == n || path[s.r + 2]? == some '/') then
    -- .. element: remove to last /
    if s.out.length > s.dotdot then
      { s with r := s.r + 2,
               out := s.out.take (Clean.backtrack s.out s.dotdot (s.out.length - 1)) }
    else if !rooted then
      let out1 := if s.out.length > 0 then s.out ++ ['/'] else s.out
      let out2 := out1 ++ ['.', '.']
      { r := s.r + 2, out := out2, dotdot := out2.length }
    else
      { s with r := s.r + 2 }
  else
    -- real path element: add slash if needed, then copy the element
    let out1 :=
      if (rooted && s.out.length != 1) || (!rooted && s.out.length != 0) then s.out ++ ['/']
      else s.out
    let elem := (path.drop s.r).takeWhile (fun c => c != '/')
    { s with r := s.r + elem.length, out := out1 ++ elem }

/-- The loop `for r < n` of `path.Clean`. Every iteration advances `r`, so `path.length`
iterations are enough (see `Clean.step_advances`). -/
def Clean.loop (path : List Char) (rooted : Bool) : Nat → CleanState → CleanState
  | 0, s => s
  | fuel + 1, s =>
    if s.r < path.length then Clean.loop path rooted fuel (Clean.step path rooted s) else s

/-- The function `path.Clean`. -/
def Clean (path : String) : String :=
  if path = "" then "."
  else
    let p := path.data
    let rooted := p[0]? == some '/'
    let s0 : CleanState := if rooted then ⟨1, ['/'], 1⟩ else ⟨0, [], 0⟩
    let s := Clean.loop p rooted p.length s0
    if s.out.length = 0 then "." else String.mk s.out

/-- The function `path.Join`: the elements from the first non-empty one on, joined by slashes
and cleaned; the empty string when every element is empty. -/
def Join : List String → String
  | [] => ""
  | e :: rest => if e ≠ "" then Clean ("/".intercalate (e :: rest)) else Join rest

/-! ## `pkg/image/fakes/fake_relocator.go` -/

/-- The type `registry.TLSConfig`, with the two fields `SetTLSFlags` binds. -/
structure TLSConfig where
  CaCertPath : String
  VerifyCerts : Bool
  deriving DecidableEq, Repr

/-- An `io.Writer`: the bytes written to it. -/
structure Writer where
  written : String
  deriving DecidableEq, Repr

/-- The fake `Relocator.Relocate(image, dest, _, _)`. -/
def Relocator.Relocate (ParseReference : ReferenceParser) (image : Image) (dest : String)
    (_w : Writer) (_tls : TLSConfig) : String × Option Error :=
  match image.Digest with
  | .error err => ("", some err)
  | .ok digest =>
    let sha := digest.String
    match ParseReference dest [] with
    | .error err => ("", some err)
    | .ok destRef => (destRef.RegistryStr ++ "/" ++ destRef.RepositoryStr ++ "@" ++ sha, none)

/-! ## `pkg/clusterstack/factory.go` -/

/-- A call to one of the two collaborators of the stack factory. -/
inductive Call where
  | Fetch (src : String)
  | Relocate (image : Image) (dest : String)
  deriving DecidableEq, Repr

/-- The state of the outside world (registries, network) and the log of collaborator calls. -/
structure World (σ : Type) where
  state : σ
  calls : List Call

/-- The interface `ImageFetcher`. -/
structure ImageFetcher (σ : Type) where
  Fetch : String → σ → Except Error Image × σ

/-- The interface `ImageRelocator`. -/
structure ImageRelocator (σ : Type) where
  Relocate : Image → String → σ → Except Error String × σ

/-- A logged call `Fetcher.Fetch(src)`. -/
def ImageFetcher.call {σ : Type} (f : ImageFetcher σ) (src : String) (w : World σ) :
    Except Error Image × World σ :=
  ((f.Fetch src w.state).1,
    { state := (f.Fetch src w.state).2, calls := w.calls ++ [Call.Fetch src] })

/-- A logged call `Relocator.Relocate(image, dest)`. -/
def ImageRelocator.call {σ : Type} (r : ImageRelocator σ) (image : Image) (dest : String)
    (w : World σ) : Except Error String × World σ :=
  ((r.Relocate image dest w.state).1,
    { state := (r.Relocate image dest w.state).2, calls := w.calls ++ [Call.Relocate image dest] })

/-- What `factory.go` uses from other files: the library function `name.ParseReference`, the
package function `GetStackId`, the package constants `BuildImageName` and `RunImageName` and
the constant `expv1alpha1.ClusterStackKind`. -/
structure Deps where
  ParseReference : ReferenceParser
  GetStackId : Image → Except Error String
  BuildImageName : String
  RunImageName : String
  ClusterStackKind : String

/-- The type `metav1.TypeMeta`. -/
structure TypeMeta where
  Kind : String
  APIVersion : String
  deriving DecidableEq, Repr

/-- The type `metav1.ObjectMeta`, with the fields the commands set or read. -/
structure ObjectMeta where
  Name : String
  Annotations : List (String × String)
  deriving DecidableEq, Repr

/-- The type `expv1alpha1.ClusterStackSpecImage`. -/
structure ClusterStackSpecImage where
  Image : String
  deriving DecidableEq, Repr

/-- The type `expv1alpha1.ClusterStackSpec`. -/
structure ClusterStackSpec where
  Id : String
  BuildImage : ClusterStackSpecImage
  RunImage : ClusterStackSpecImage
  deriving DecidableEq, Repr

/-- The type `expv1alpha1.ClusterStack`. -/
structure ClusterStack where
  TypeMeta : TypeMeta
  ObjectMeta : ObjectMeta
  Spec : ClusterStackSpec
  deriving DecidableEq, Repr

/-- The struct `Factory`. -/
structure Factory (σ : Type) where
  Fetcher : ImageFetcher σ
  Relocator : ImageRelocator σ
  Repository : String
  BuildImageRef : String
  RunImageRef : String

/-- The method `Factory.validate`: the error of parsing the repository, if any. -/
def Factory.validate {σ : Type} (d : Deps) (f : Factory σ) : Option Error :=
  match d.ParseReference f.Repository [NameOption.WeakValidation] with
  | .error err => some err
  | .ok _ => none

/-- The error `errors.Errorf("build stack '%s' does not match run stack '%s'", b, r)`. -/
def stackMismatch (buildStackId runStackId : String) : Error :=
  ⟨"build stack '" ++ buildStackId ++ "' does not match run stack '" ++ runStackId ++ "'"⟩

/-- The method `Factory.MakeStack`. -/
def Factory.MakeStack {σ : Type} (d : Deps) (f : Factory σ) (name : String) (w : World σ) :
    (Option ClusterStack × Option Error) × World σ :=
  match f.validate d with
  | some err => ((none, some err), w)
  | none =>
  match f.Fetcher.call f.BuildImageRef w with
  | (.error err, w1) => ((none, some err), w1)
  | (.ok buildImage, w1) =>
  match d.GetStackId buildImage with
  | .error err => ((none, some err), w1)
  | .ok buildStackId =>
  match f.Fetcher.call f.RunImageRef w1 with
  | (.error err, w2) => ((none, some err), w2)
  | (.ok runImage, w2) =>
  match d.GetStackId runImage with
  | .error err => ((none, some err), w2)
  | .ok runStackId =>
  if buildStackId ≠ runStackId then
    ((none, some (stackMismatch buildStackId runStackId)), w2)
  else
  match f.Relocator.call buildImage (Join [f.Repository, d.BuildImageName]) w2 with
  | (.error err, w3) => ((none, some err), w3)
  | (.ok relocatedBuildImageRef, w3) =>
  match f.Relocator.call runImage (Join [f.Repository, d.RunImageName]) w3 with
  | (.error err, w4) => ((none, some err), w4)
  | (.ok relocatedRunImageRef, w4) =>
  ((some {
      TypeMeta := { Kind := d.ClusterStackKind,
                    APIVersion := "experimental.kpack.pivotal.io/v1alpha1" }
      ObjectMeta := { Name := name, Annotations := [] }
      Spec := { Id := buildStackId
                BuildImage := { Image := relocatedBuildImageRef }
                RunImage := { Image := relocatedRunImageRef } } },
    none), w4)

/-! ## `pkg/commands`: the cluster stack and cluster store commands -/

/-- The type `v1alpha1.StoreImage`. -/
structure StoreImage where
  Image : String
  deriving DecidableEq, Repr

/-- The type `v1alpha1.ClusterStoreSpec`. -/
structure ClusterStoreSpec where
  Sources : List StoreImage
  deriving DecidableEq, Repr

/-- The type `v1alpha1.ClusterStore`. -/
structure ClusterStore where
  ObjectMeta : ObjectMeta
  Spec : ClusterStoreSpec
  deriving DecidableEq, Repr

/-- The field `Name` promoted from the embedded `ObjectMeta`. -/
def ClusterStore.Name (store : ClusterStore) : String :=
  store.ObjectMeta.Name

/-- A `runtime.Object` handed to `PrintObj`. -/
inductive Object where
  | Stack (stack : ClusterStack)
  | Store (store : ClusterStore)
  deriving DecidableEq, Repr

/-- The struct `clusterstack.Factory` as `newClusterStackFactory` builds it. The fetcher
`rup.Fetcher()` and the printer `ch` are fixed per command; the relocator is
`rup.Relocator(ch.CanChangeState())`. -/
structure commands.clusterstack.Factory where
  RelocatorChangeState : Bool
  TLSConfig : TLSConfig
  Repository : String
  deriving DecidableEq, Repr

/-- The struct `clusterstore.Factory` as `newClusterStoreFactory` builds it. -/
structure commands.clusterstore.Factory where
  RelocatorChangeState : Bool
  TLSConfig : TLSConfig
  Repository : String
  deriving DecidableEq, Repr

/-- A call made by a command to one of its collaborators. -/
inductive CmdCall where
  | GetClientSet (ns : String)
  | NewCommandHelper
  | GetCanonicalRepository
  | PrintStatus (format : String)
  | MakeStack (name buildImageRef runImageRef : String)
  | MakeStore (name : String) (buildpackages : List String)
  | AddToStore (store : ClusterStore) (buildpackages : List String)
  | ClusterStoresGet (name : String)
  | ClusterStoresCreate (store : ClusterStore)
  | ClusterStoresUpdate (store : ClusterStore)
  | ClusterStacksCreate (stack : ClusterStack)
  | PrintObj (obj : Object)
  | PrintResult (format : String) (args : List String)
  | PrintChangeResult (changed : Bool) (format : String) (args : List String)
  deriving DecidableEq, Repr

/-- The state of the outside world (cluster, registries, terminal) and the log of the calls a
command made. -/
structure CmdWorld (σ : Type) where
  state : σ
  calls : List CmdCall

/-- Runs the collaborator operation `op` and logs it as the call `c`. -/
def CmdWorld.logged {σ α : Type} (c : CmdCall) (op : σ → α × σ) (w : CmdWorld σ) :
    α × CmdWorld σ :=
  ((op w.state).1, { state := (op w.state).2, calls := w.calls ++ [c] })

/-- The methods of `commands.CommandHelper` the commands call. `IsDryRun` and
`CanChangeState` read the flags the helper was built from. -/
structure CommandHelper (σ : Type) where
  IsDryRun : Bool
  CanChangeState : Bool
  PrintStatus : String → σ → Option Error × σ
  PrintObj : Object → σ → Option Error × σ
  PrintResult : String → List String → σ → Option Error × σ
  PrintChangeResult : Bool → String → List String → σ → Option Error × σ

/-- The methods of `k8s.ClientSet` the commands call: the `ClusterStores()` and
`ClusterStacks()` clients of `KpackClient.KpackV1alpha1()` and, through
`k8s.DefaultConfigHelper(cs)`, `GetCanonicalRepository`. -/
structure ClientSet (σ : Type) where
  ClusterStoresGet : String → σ → Except Error ClusterStore × σ
  ClusterStoresCreate : ClusterStore → σ → Except Error ClusterStore × σ
  ClusterStoresUpdate : ClusterStore → σ → Except Error ClusterStore × σ
  ClusterStacksCreate : ClusterStack → σ → Except Error ClusterStack × σ
  GetCanonicalRepository : σ → Except Error String × σ

/-- What the command files use from other files: the client set provider, the constructor
`commands.NewCommandHelper`, the library predicate `k8serrors.IsNotFound` (false on a nil
error) and the factory methods `MakeStack`, `MakeStore` and `AddToStore`. -/
structure CmdEnv (σ : Type) where
  GetClientSet : String → σ → Except Error (ClientSet σ) × σ
  NewCommandHelper : σ → Except Error (CommandHelper σ) × σ
  IsNotFound : Error → Bool
  MakeStack : commands.clusterstack.Factory → String → String → String → σ →
    Except Error ClusterStack × σ
  MakeStore : commands.clusterstore.Factory → String → List String → σ →
    Except Error ClusterStore × σ
  AddToStore : commands.clusterstore.Factory → ClusterStore → List String → σ →
    Except Error (ClusterStore × Bool) × σ

/-- The function `newClusterStackFactory` of `clusterstack/create.go`. -/
def commands.clusterstack.newClusterStackFactory {σ : Type} (cs : ClientSet σ)
    (ch : CommandHelper σ) (tlsCfg : TLSConfig) (w : CmdWorld σ) :
    Except Error commands.clusterstack.Factory × CmdWorld σ :=
  match w.logged CmdCall.GetCanonicalRepository cs.GetCanonicalRepository with
  | (.error err, w1) => (.error err, w1)
  | (.ok repo, w1) =>
    (.ok { RelocatorChangeState := ch.CanChangeState, TLSConfig := tlsCfg, Repository := repo },
      w1)

/-- The function `create` of `clusterstack/create.go`. -/
def commands.clusterstack.create {σ : Type} (env : CmdEnv σ)
    (name buildImageRef runImageRef : String) (factory : commands.clusterstack.Factory)
    (ch : CommandHelper σ) (cs : ClientSet σ) (w : CmdWorld σ) : Option Error × CmdWorld σ :=
  match w.logged (CmdCall.PrintStatus "Creating ClusterStack...")
      (ch.PrintStatus "Creating ClusterStack...") with
  | (some err, w1) => (some err, w1)
  | (none, w1) =>
  match w1.logged (CmdCall.MakeStack name buildImageRef runImageRef)
      (env.MakeStack factory name buildImageRef runImageRef) with
  | (.error err, w2) => (some err, w2)
  | (.ok stack, w2) =>
  match (if !ch.IsDryRun then
      w2.logged (CmdCall.ClusterStacksCreate stack) (cs.ClusterStacksCreate stack)
    else (.ok stack, w2)) with
  | (.error err, w3) => (some err, w3)
  | (.ok stack, w3) =>
  match w3.logged (CmdCall.PrintObj (Object.Stack stack)) (ch.PrintObj (Object.Stack stack)) with
  | (some err, w4) => (some err, w4)
  | (none, w4) =>
  w4.logged (CmdCall.PrintResult "ClusterStack %q created" [name])
    (ch.PrintResult "ClusterStack %q created" [name])

/-- The `RunE` function of `clusterstack.NewCreateCommand`; `args` holds exactly one
argument (`commands.ExactArgsWithUsage(1)`). -/
def commands.clusterstack.NewCreateCommand.RunE {σ : Type} (env : CmdEnv σ)
    (buildImageRef runImageRef : String) (tlsCfg : TLSConfig) (args : List String)
    (w : CmdWorld σ) : Option Error × CmdWorld σ :=
  match w.logged (CmdCall.GetClientSet "") (env.GetClientSet "") with
  | (.error err, w1) => (some err, w1)
  | (.ok cs, w1) =>
  match w1.logged CmdCall.NewCommandHelper env.NewCommandHelper with
  | (.error err, w2) => (some err, w2)
  | (.ok ch, w2) =>
  match commands.clusterstack.newClusterStackFactory cs ch tlsCfg w2 with
  | (.error err, w3) => (some err, w3)
  | (.ok factory, w3) =>
  let name := args.getD 0 ""
  commands.clusterstack.create env name buildImageRef runImageRef factory ch cs w3

/-- The function `newClusterStoreFactory` of `clusterstore/create.go`. -/
def commands.clusterstore.newClusterStoreFactory {σ : Type} (cs : ClientSet σ)
    (ch : CommandHelper σ) (tlsCfg : TLSConfig) (w : CmdWorld σ) :
    Except Error commands.clusterstore.Factory × CmdWorld σ :=
  match w.logged CmdCall.GetCanonicalRepository cs.GetCanonicalRepository with
  | (.error err, w1) => (.error err, w1)
  | (.ok repo, w1) =>
    (.ok { RelocatorChangeState := ch.CanChangeState, TLSConfig := tlsCfg, Repository := repo },
      w1)

/-- The function `create` of `clusterstore/create.go`. -/
def commands.clusterstore.create {σ : Type} (env : CmdEnv σ) (name : String)
    (buildpackages : List String) (factory : commands.clusterstore.Factory)
    (ch : CommandHelper σ) (cs : ClientSet σ) (w : CmdWorld σ) : Option Error × CmdWorld σ :=
  match w.logged (CmdCall.PrintStatus "Creating ClusterStore...")
      (ch.PrintStatus "Creating ClusterStore...") with
  | (some err, w1) => (some err, w1)
  | (none, w1) =>
  match w1.logged (CmdCall.MakeStore name buildpackages)
      (env.MakeStore factory name buildpackages) with
  | (.error err, w2) => (some err, w2)
  | (.ok newStore, w2) =>
  match (if !ch.IsDryRun then
      w2.logged (CmdCall.ClusterStoresCreate newStore) (cs.ClusterStoresCreate newStore)
    else (.ok newStore, w2)) with
  | (.error err, w3) => (some err, w3)
  | (.ok newStore, w3) =>
  match w3.logged (CmdCall.PrintObj (Object.Store newStore))
      (ch.PrintObj (Object.Store newStore)) with
  | (some err, w4) => (some err, w4)
  | (none, w4) =>
  w4.logged (CmdCall.PrintResult "ClusterStore %q created" [name])
    (ch.PrintResult "ClusterStore %q created" [name])

/-- The `RunE` function of `clusterstore.NewCreateCommand`. -/
def commands.clusterstore.NewCreateCommand.RunE {σ : Type} (env : CmdEnv σ)
    (buildpackages : List String) (tlsCfg : TLSConfig) (args : List String)
    (w : CmdWorld σ) : Option Error × CmdWorld σ :=
  match w.logged (CmdCall.GetClientSet "") (env.GetClientSet "") with
  | (.error err, w1) => (some err, w1)
  | (.ok cs, w1) =>
  match w1.logged CmdCall.NewCommandHelper env.NewCommandHelper with
  | (.error err, w2) => (some err, w2)
  | (.ok ch, w2) =>
  match commands.clusterstore.newClusterStoreFactory cs ch tlsCfg w2 with
  | (.error err, w3) => (some err, w3)
  | (.ok factory, w3) =>
  let name := args.getD 0 ""
  commands.clusterstore.create env name buildpackages factory ch cs w3

/-- The function `update` of `clusterstore/add.go`. -/
def commands.clusterstore.update {σ : Type} (env : CmdEnv σ) (store : ClusterStore)
    (buildpackages : List String) (factory : commands.clusterstore.Factory)
    (ch : CommandHelper σ) (cs : ClientSet σ) (w : CmdWorld σ) : Option Error × CmdWorld σ :=
  match w.logged (CmdCall.PrintStatus "Adding to ClusterStore...")
      (ch.PrintStatus "Adding to ClusterStore...") with
  | (some err, w1) => (some err, w1)
  | (none, w1) =>
  match w1.logged (CmdCall.AddToStore store buildpackages)
      (env.AddToStore factory store buildpackages) with
  | (.error err, w2) => (some err, w2)
  | (.ok (updatedStore, storeUpdated), w2) =>
  match (if storeUpdated && !ch.IsDryRun then
      w2.logged (CmdCall.ClusterStoresUpdate updatedStore) (cs.ClusterStoresUpdate updatedStore)
    else (.ok updatedStore, w2)) with
  | (.error err, w3) => (some err, w3)
  | (.ok updatedStore, w3) =>
  match w3.logged (CmdCall.PrintObj (Object.Store updatedStore))
      (ch.PrintObj (Object.Store updatedStore)) with
  | (some err, w4) => (some err, w4)
  | (none, w4) =>
  w4.logged (CmdCall.PrintChangeResult storeUpdated "ClusterStore %q updated" [updatedStore.Name])
    (ch.PrintChangeResult storeUpdated "ClusterStore %q updated" [updatedStore.Name])

/-- The `RunE` function of `clusterstore.NewAddCommand`. -/
def commands.clusterstore.NewAddCommand.RunE {σ : Type} (env : CmdEnv σ)
    (buildpackages : List String) (tlsCfg : TLSConfig) (args : List String)
    (w : CmdWorld σ) : Option Error × CmdWorld σ :=
  match w.logged (CmdCall.GetClientSet "") (env.GetClientSet "") with
  | (.error err, w1) => (some err, w1)
  | (.ok cs, w1) =>
  match w1.logged CmdCall.NewCommandHelper env.NewCommandHelper with
  | (.error err, w2) => (some err, w2)
  | (.ok ch, w2) =>
  let name := args.getD 0 ""
  match w2.logged (CmdCall.ClusterStoresGet name) (cs.ClusterStoresGet name) with
  | (.error err, w3) =>
    if env.IsNotFound err then (some ⟨"ClusterStore '" ++ name ++ "' does not exist"⟩, w3)
    else (some err, w3)
  | (.ok store, w3) =>
  match commands.clusterstore.newClusterStoreFactory cs ch tlsCfg w3 with
  | (.error err, w4) => (some err, w4)
  | (.ok factory, w4) =>
  commands.clusterstore.update env store buildpackages factory ch cs w4

/-- The `RunE` function of `clusterstore.NewSaveCommand`. -/
def commands.clusterstore.NewSaveCommand.RunE {σ : Type} (env : CmdEnv σ)
    (buildpackages : List String) (tlsCfg : TLSConfig) (args : List String)
    (w : CmdWorld σ) : Option Error × CmdWorld σ :=
  match w.logged (CmdCall.GetClientSet "") (env.GetClientSet "") with
  | (.error err, w1) => (some err, w1)
  | (.ok cs, w1) =>
  match w1.logged CmdCall.NewCommandHelper env.NewCommandHelper with
  | (.error err, w2) => (some err, w2)
  | (.ok ch, w2) =>
  let name := args.getD 0 ""
  match commands.clusterstore.newClusterStoreFactory cs ch tlsCfg w2 with
  | (.error err, w3) => (some err, w3)
  | (.ok factory, w3) =>
  match w3.logged (CmdCall.ClusterStoresGet name) (cs.ClusterStoresGet name) with
  | (.error err, w4) =>
    if env.IsNotFound err then
      commands.clusterstore.create env name buildpackages factory ch cs w4
    else (some err, w4)
  | (.ok clusterStore, w4) =>
  commands.clusterstore.update env clusterStore buildpackages factory ch cs w4

/-- The calls logged between the world `w` and a later world `w1`. -/
def newCalls {σ : Type} (w w1 : CmdWorld σ) : List CmdCall :=
  w1.calls.drop w.calls.length

/-- The calls that only the update path of the store commands makes. -/
def CmdCall.isUpdatePath : CmdCall → Bool
  | CmdCall.AddToStore _ _ => true
  | CmdCall.ClusterStoresUpdate _ => true
  | CmdCall.PrintChangeResult _ _ _ => true
  | _ => false

/-- The calls that only the create path of the store commands makes. -/
def CmdCall.isCreatePath : CmdCall → Bool
  | CmdCall.MakeStore _ _ => true
  | CmdCall.ClusterStoresCreate _ => true
  | CmdCall.PrintResult _ _ => true
  | _ => false

/-! ## The additive merge of the store factory -/

/-- Modelled from the spec: the type `BuildpackageMetadata` (section 3), which no source file
declares: the identity of a buildpackage, its version and the identities of the buildpacks
nested in it. -/
structure BuildpackageMetadata where
  Id : String
  Version : String
  Nested : List String
  deriving DecidableEq, Repr

/-- Modelled from the spec: the capabilities the store factory consumes (sections 4.2 and 6),
none of which is among the source files: `Fetch`, `Relocate`, the inspector `Inspect`, and the
inspected metadata of a source that is already in a store. -/
structure StoreCapabilities (σ : Type) where
  Fetch : String → σ → Except Error Image × σ
  Relocate : Image → String → σ → Except Error String × σ
  Inspect : Image → Except Error BuildpackageMetadata
  SourceMetadata : StoreImage → Option BuildpackageMetadata

/-- Modelled from the spec: the per-reference step of section 4.3, which `AddToStore` shares
with `MakeStore` (the store factory is not among the source files): fetch the reference,
relocate the image to `{canonicalRepo}/{name}`, inspect its metadata; any failure is
terminal. -/
def uploadBuildpackage {σ : Type} (c : StoreCapabilities σ) (canonicalRepo name : String)
    (ref : String) (s : σ) : Except Error (StoreImage × BuildpackageMetadata) × σ :=
  match c.Fetch ref s with
  | (.error err, s1) => (.error err, s1)
  | (.ok image, s1) =>
    match c.Relocate image (canonicalRepo ++ "/" ++ name) s1 with
    | (.error err, s2) => (.error err, s2)
    | (.ok relocated, s2) =>
      match c.Inspect image with
      | .error err => (.error err, s2)
      | .ok md => (.ok (⟨relocated⟩, md), s2)

/-- Modelled from the spec: section 5 for the missing store factory: the references are
processed one at a time, in input order, before the result is assembled; the first failure
ends the call. -/
def uploadBuildpackages {σ : Type} (c : StoreCapabilities σ) (canonicalRepo name : String) :
    List String → σ → Except Error (List (StoreImage × BuildpackageMetadata)) × σ
  | [], s => (.ok [], s)
  | ref :: refs, s =>
    match uploadBuildpackage c canonicalRepo name ref s with
    | (.error err, s1) => (.error err, s1)
    | (.ok up, s1) =>
      match uploadBuildpackages c canonicalRepo name refs s1 with
      | (.error err, s2) => (.error err, s2)
      | (.ok ups, s2) => (.ok (up :: ups), s2)

/-- Modelled from the spec: the presence test of section 4.4 for the missing store factory:
a buildpackage is already present when its (identity, version) pair matches the inspected
metadata of an existing source. -/
def alreadyPresent {σ : Type} (c : StoreCapabilities σ) (existing : ClusterStoreSpec)
    (md : BuildpackageMetadata) : Bool :=
  existing.Sources.any fun src =>
    match c.SourceMetadata src with
    | some m => m.Id == md.Id && m.Version == md.Version
    | none => false

/-- Modelled from the spec: `AddToStore` of the store factory (section 4.4), which the source
files call (`clusterstore/add.go`) but do not contain. Present buildpackages are skipped, new
ones are appended in input order after the existing sources, and `changed` tells whether
anything was appended. -/
def AddToStore {σ : Type} (c : StoreCapabilities σ) (canonicalRepo name : String)
    (existing : ClusterStoreSpec) (refs : List String) (s : σ) :
    Except Error (ClusterStoreSpec × Bool) × σ :=
  match uploadBuildpackages c canonicalRepo name refs s with
  | (.error err, s1) => (.error err, s1)
  | (.ok ups, s1) =>
    let added := ups.filter (fun up => !alreadyPresent c existing up.2)
    (.ok ({ Sources := existing.Sources ++ added.map (fun up => up.1) }, !added.isEmpty), s1)

/-! ## `pkg/commands/build/status.go` -/

/-- A Go run-time panic, identified by its message. -/
structure Panic where
  msg : String
  deriving DecidableEq, Repr

/-- The type `v1alpha1.Git`. -/
structure Git where
  URL : String
  Revision : String
  deriving DecidableEq, Repr

/-- The type `v1alpha1.Blob`. -/
structure Blob where
  URL : String
  deriving DecidableEq, Repr

/-- The type `v1alpha1.SourceConfig`, with its two pointer fields. -/
structure SourceConfig where
  Git : Option Git
  Blob : Option Blob
  deriving DecidableEq, Repr

/-- The type `v1alpha1.BuildBuilderSpec`. -/
structure BuildBuilderSpec where
  Image : String
  deriving DecidableEq, Repr

/-- The type `v1alpha1.BuildSpec`, with the fields `status.go` reads. -/
structure BuildSpec where
  Builder : BuildBuilderSpec
  Source : SourceConfig
  deriving DecidableEq, Repr

/-- The type `v1alpha1.BuildStack`. -/
structure BuildStack where
  RunImage : String
  deriving DecidableEq, Repr

/-- The type `v1alpha1.BuildpackMetadata`. -/
structure BuildpackMetadata where
  Id : String
  Version : String
  deriving DecidableEq, Repr

/-- The type `v1alpha1.BuildStatus`, with the fields `status.go` reads. -/
structure BuildStatus where
  LatestImage : String
  Stack : BuildStack
  BuildMetadata : List BuildpackMetadata
  deriving DecidableEq, Repr

/-- The type `v1alpha1.Build`. `Name`, `Labels`, `Annotations` and `CreationTimestamp` are
promoted from the embedded `ObjectMeta`; a Go map is a list of key-value pairs. -/
structure Build where
  Name : String
  Labels : List (String × String)
  Annotations : List (String × String)
  CreationTimestamp : Int
  Spec : BuildSpec
  Status : BuildStatus
  deriving DecidableEq, Repr

/-- The zero value `v1alpha1.Build{}`. -/
def Build.zero : Build where
  Name := ""
  Labels := []
  Annotations := []
  CreationTimestamp := 0
  Spec := { Builder := { Image := "" }, Source := { Git := none, Blob := none } }
  Status := { LatestImage := "", Stack := { RunImage := "" }, BuildMetadata := [] }

/-- The type `v1alpha1.BuildList`. -/
structure BuildList where
  Items : List Build
  deriving DecidableEq, Repr

/-- A Go map read `m[key]`: the value of the key, or the empty string. -/
def mapIndex (m : List (String × String)) (key : String) : String :=
  (m.lookup key).getD ""

/-- A Go slice read `s[i]` with its bounds check. -/
def sliceIndex {α : Type} (s : List α) (i : Int) : Except Panic α :=
  if 0 ≤ i ∧ i < s.length then
    match s[i.toNat]? with
    | some a => .ok a
    | none => .error ⟨"runtime error: index out of range"⟩
  else .error ⟨"runtime error: index out of range"⟩

/-- A call made by the build status command. -/
inductive StatusCall where
  | BuildsList (ns labelSelector : String)
  | findBuild (items : List Build) (buildNumber : Int)
  | Atoi (s : String)
  | Fprint (text : String)
  | Flush
  | NewTableWriter (headers : List String)
  | AddRow (row : List String)
  | TableWrite
  deriving DecidableEq, Repr

/-- The state of the outside world (cluster, terminal) and the log of the calls the build
status command made. -/
structure StatusWorld (σ : Type) where
  state : σ
  calls : List StatusCall

/-- Runs the collaborator operation `op` and logs it as the call `c`. -/
def StatusWorld.logged {σ α : Type} (c : StatusCall) (op : σ → α × σ) (w : StatusWorld σ) :
    α × StatusWorld σ :=
  ((op w.state).1, { state := (op w.state).2, calls := w.calls ++ [c] })

/-- What `status.go` uses from other files and libraries: the client call
`BuildV1alpha1().Builds(namespace).List` with a label selector, the constants
`v1alpha1.ImageLabel`, `v1alpha1.BuildNumberLabel` and `v1alpha1.BuildReasonAnnotation`
(here `BuildReasonKey`), the library functions `strconv.Atoi` and `sort.Slice`, the package
functions `sortBuilds` and `getStatus`, writes to the tab writer (`Fprint` stands for
`fmt.Fprintf` and `fmt.Fprintln` with the text they format, `Flush` for `writer.Flush`) and
the table writer of `commands.NewTableWriter` with its methods `AddRow` and `Write`. -/
structure StatusEnv (σ : Type) where
  BuildsList : String → String → σ → Except Error BuildList × σ
  ImageLabel : String
  BuildNumberLabel : String
  BuildReasonKey : String
  Atoi : String → Except Error Int
  sortBuilds : List Build → Nat → Nat → Bool
  SortSlice : List Build → (Nat → Nat → Bool) → List Build
  getStatus : Build → String
  Fprint : String → σ → Option Error × σ
  Flush : σ → Option Error × σ
  NewTableWriter : List String → σ → Option Error × σ
  AddRow : List String → σ → Option Error × σ
  TableWrite : σ → Option Error × σ

/-- The loop `for _, b := range buildList.Items` of `findBuild`: the value the loop returns,
if it returns, and the `strconv.Atoi` calls it makes. -/
def findBuild.loop {σ : Type} (env : StatusEnv σ) (buildNumber : Int) :
    List Build → Option (Build × Option Error) × List StatusCall
  | [] => (none, [])
  | b :: rest =>
    match env.Atoi (mapIndex b.Labels env.BuildNumberLabel) with
    | .error err =>
      (some (Build.zero, some err), [StatusCall.Atoi (mapIndex b.Labels env.BuildNumberLabel)])
    | .ok val =>
      if val == buildNumber then
        (some (b, none), [StatusCall.Atoi (mapIndex b.Labels env.BuildNumberLabel)])
      else
        ((findBuild.loop env buildNumber rest).1,
          StatusCall.Atoi (mapIndex b.Labels env.BuildNumberLabel) ::
            (findBuild.loop env buildNumber rest).2)

/-- The function `findBuild`: its result, or the panic of an index out of range, and the
`strconv.Atoi` calls it makes. -/
def findBuild {σ : Type} (env : StatusEnv σ) (buildList : BuildList) (buildNumber : Int)
    (img namespace_ : String) : Except Panic (Build × Option Error) × List StatusCall :=
  if buildNumber == -1 then
    match sliceIndex buildList.Items ((buildList.Items.length : Int) - 1) with
    | .error p => (.error p, [])
    | .ok b => (.ok (b, none), [])
  else
    match findBuild.loop env buildNumber buildList.Items with
    | (some r, calls) => (.ok r, calls)
    | (none, calls) =>
      (.ok (Build.zero,
        some ⟨"build \"" ++ toString buildNumber ++ "\" for image \"" ++ img ++
          "\" not found in \"" ++ namespace_ ++ "\" namespace"⟩), calls)

/-- A run of `fmt.Fprintf` and `fmt.Fprintln` statements on the tab writer, each followed by
`if err != nil { return err }`: the texts are written in order up to the first error. -/
def printAll {σ : Type} (env : StatusEnv σ) :
    List String → StatusWorld σ → Option Error × StatusWorld σ
  | [], w => (none, w)
  | text :: rest, w =>
    match w.logged (StatusCall.Fprint text) (env.Fprint text) with
    | (some err, w1) => (some err, w1)
    | (none, w1) => printAll env rest w1

/-- The loop `for _, buildpack := range bld.Status.BuildMetadata` of `displayBuildStatus`. -/
def displayBuildStatus.rows {σ : Type} (env : StatusEnv σ) :
    List BuildpackMetadata → StatusWorld σ → Option Error × StatusWorld σ
  | [], w => (none, w)
  | buildpack :: rest, w =>
    match w.logged (StatusCall.AddRow [buildpack.Id, buildpack.Version])
        (env.AddRow [buildpack.Id, buildpack.Version]) with
    | (some err, w1) => (some err, w1)
    | (none, w1) => displayBuildStatus.rows env rest w1

/-- The texts `displayBuildStatus` writes for the source of a build. -/
def displayBuildStatus.source (bld : Build) : List String :=
  match bld.Spec.Source.Git, bld.Spec.Source.Blob with
  | some git, _ => ["Source:\tGit\n", "Url:\t" ++ git.URL ++ "\n",
      "Revision:\t" ++ git.Revision ++ "\n"]
  | none, some blob => ["Source:\tBlob\n", "Url:\t" ++ blob.URL ++ "\n"]
  | none, none => ["Source:\tLocal Source\n"]

/-- The function `displayBuildStatus`. -/
def displayBuildStatus {σ : Type} (env : StatusEnv σ) (bld : Build) (w : StatusWorld σ) :
    Option Error × StatusWorld σ :=
  match printAll env
      (["Image:\t" ++ bld.Status.LatestImage ++ "\n",
        "Status:\t" ++ env.getStatus bld ++ "\n",
        "Reasons:\t" ++ mapIndex bld.Annotations env.BuildReasonKey ++ "\n\n",
        "Builder:\t" ++ bld.Spec.Builder.Image ++ "\n",
        "Run Image:\t" ++ bld.Status.Stack.RunImage ++ "\n\n"] ++
        displayBuildStatus.source bld ++ ["\n"]) w with
  | (some err, w1) => (some err, w1)
  | (none, w1) =>
  match w1.logged StatusCall.Flush env.Flush with
  | (some err, w2) => (some err, w2)
  | (none, w2) =>
  match w2.logged (StatusCall.NewTableWriter ["Buildpack Id", "Buildpack Version"])
      (env.NewTableWriter ["Buildpack Id", "Buildpack Version"]) with
  | (some err, w3) => (some err, w3)
  | (none, w3) =>
  match displayBuildStatus.rows env bld.Status.BuildMetadata w3 with
  | (some err, w4) => (some err, w4)
  | (none, w4) => w4.logged StatusCall.TableWrite env.TableWrite

/-- The `RunE` function of `build.NewStatusCommand`, with the values of the flags `namespace`
and `build`; `args` holds exactly one argument (`cobra.ExactArgs(1)`). The result is the
error of the command, or a panic. -/
def commands.build.NewStatusCommand.RunE {σ : Type} (env : StatusEnv σ)
    (namespace_ : String) (buildNumber : Int) (args : List String) (w : StatusWorld σ) :
    Except Panic (Option Error) × StatusWorld σ :=
  match w.logged (StatusCall.BuildsList namespace_ (env.ImageLabel ++ "=" ++ args.getD 0 ""))
      (env.BuildsList namespace_ (env.ImageLabel ++ "=" ++ args.getD 0 "")) with
  | (.error err, w1) => (.ok (some err), w1)
  | (.ok buildList, w1) =>
  if buildList.Items.length == 0 then
    (.ok (some ⟨"no builds for image \"" ++ args.getD 0 "" ++ "\" found in \"" ++ namespace_ ++
      "\" namespace"⟩), w1)
  else
    let sorted : BuildList :=
      { Items := env.SortSlice buildList.Items (env.sortBuilds buildList.Items) }
    let w2 : StatusWorld σ :=
      { w1 with calls := w1.calls ++ StatusCall.findBuild sorted.Items buildNumber ::
          (findBuild env sorted buildNumber (args.getD 0 "") namespace_).2 }
    match (findBuild env sorted buildNumber (args.getD 0 "") namespace_).1 with
    | .error p => (.error p, w2)
    | .ok (_, some err) => (.ok (some err), w2)
    | .ok (bld, none) =>
      ((.ok (displayBuildStatus env bld w2).1), (displayBuildStatus env bld w2).2)

/-- The calls logged between the world `w` and a later world `w1`. -/
def newStatusCalls {σ : Type} (w w1 : StatusWorld σ) : List StatusCall :=
  w1.calls.drop w.calls.length

/-- The log entries that record a call of `findBuild`. -/
def StatusCall.isFindBuild : StatusCall → Bool
  | StatusCall.findBuild _ _ => true
  | _ => false

/-! ## Sample collaborators

Concrete values for the parameters of the embedding, used to run it on examples. -/

/-- A small reference parser for inputs of the shape `registry/repository[:tag]`, standing in
for `name.ParseReference` where a concrete parser is needed: the registry is what precedes
the first slash, the tag what follows the last colon after it (`latest` when there is none). -/
def sampleParseReference : ReferenceParser := fun s _ =>
  let cs := s.data
  let registry := cs.takeWhile (fun c => c != '/')
  let rest := (cs.dropWhile (fun c => c != '/')).drop 1
  if registry = [] ∨ rest = [] then .error ⟨"could not parse reference: " ++ s⟩
  else if rest.contains ':' then
    let tag := (rest.reverse.takeWhile (fun c => c != ':')).reverse
    .ok ⟨String.mk registry, String.mk (rest.take (rest.length - tag.length - 1)), String.mk tag⟩
  else .ok ⟨String.mk registry, String.mk rest, "latest"⟩

/-- Modelled from the spec: `GetStackId` is called by `factory.go` but defined in a file that
is not among the sources. The spec derives the StackId from the label metadata of the image,
failing with `InvalidStackMetadata` when the label is absent; its scenario names the label
`stack-id`. -/
def sampleGetStackId (image : Image) : Except Error String :=
  match image.Labels.lookup "stack-id" with
  | some id => .ok id
  | none => .error ⟨"InvalidStackMetadata"⟩

/-- Sample dependencies: the sample parser and stack id function, and the image names
`build` and `run` under which the spec relocates the two images. -/
def sampleDeps : Deps where
  ParseReference := sampleParseReference
  GetStackId := sampleGetStackId
  BuildImageName := "build"
  RunImageName := "run"
  ClusterStackKind := "ClusterStack"

/-- A build image labelled with stack id `bionic`. -/
def sampleBuildImage : Image where
  Digest := .ok ⟨"sha256", "b01d"⟩
  Labels := [("stack-id", "bionic")]

/-- A run image labelled with stack id `bionic`. -/
def sampleRunImage : Image where
  Digest := .ok ⟨"sha256", "4a11"⟩
  Labels := [("stack-id", "bionic")]

/-- A run image of another stack. -/
def sampleOtherRunImage : Image where
  Digest := .ok ⟨"sha256", "07e4"⟩
  Labels := [("stack-id", "focal")]

/-- An image without a stack label. -/
def sampleUnlabelledImage : Image where
  Digest := .ok ⟨"sha256", "0000"⟩
  Labels := []

/-- An image whose digest cannot be read. -/
def sampleBrokenImage : Image where
  Digest := .error ⟨"digest unavailable"⟩
  Labels := [("stack-id", "bionic")]

/-- A fetcher over a registry that serves the sample images; the state counts the fetches. -/
def sampleFetcher : ImageFetcher Nat where
  Fetch := fun src n =>
    if src = "registry.example/build:v1" then (.ok sampleBuildImage, n + 1)
    else if src = "registry.example/run:v1" then (.ok sampleRunImage, n + 1)
    else if src = "registry.example/other-run:v1" then (.ok sampleOtherRunImage, n + 1)
    else if src = "registry.example/broken:v1" then (.ok sampleBrokenImage, n + 1)
    else (.error ⟨"fetch failed: " ++ src⟩, n + 1)

/-- The fake relocator behind the interface `ImageRelocator`. -/
def fakeRelocator (σ : Type) (ParseReference : ReferenceParser) : ImageRelocator σ where
  Relocate := fun image dest s =>
    match Relocator.Relocate ParseReference image dest ⟨""⟩ ⟨"", true⟩ with
    | (ref, none) => (.ok ref, s)
    | (_, some err) => (.error err, s)

/-- The factory of the spec's end-to-end scenario. -/
def sampleFactory : Factory Nat where
  Fetcher := sampleFetcher
  Relocator := fakeRelocator Nat sampleParseReference
  Repository := "canonical.example/repo"
  BuildImageRef := "registry.example/build:v1"
  RunImageRef := "registry.example/run:v1"

/-- The calls in a log that are `Fetch` calls. -/
def Call.isFetch : Call → Bool
  | Call.Fetch _ => true
  | Call.Relocate _ _ => false

/-- A store holding one buildpackage. -/
def sampleStore : ClusterStore where
  ObjectMeta := { Name := "my-store", Annotations := [] }
  Spec := { Sources := [⟨"canonical.example/repo/my-store@sha256:aaaa"⟩] }

/-- A client set over a cluster whose state is the list of its stores. -/
def sampleClientSet : ClientSet (List ClusterStore) where
  ClusterStoresGet := fun name stores =>
    match stores.find? (fun st => st.Name = name) with
    | some st => (.ok st, stores)
    | none => (.error ⟨"not found"⟩, stores)
  ClusterStoresCreate := fun st stores => (.ok st, stores ++ [st])
  ClusterStoresUpdate := fun st stores =>
    (.ok st, stores.map (fun old => if old.Name = st.Name then st else old))
  ClusterStacksCreate := fun stack stores => (.ok stack, stores)
  GetCanonicalRepository := fun stores => (.ok "canonical.example/repo", stores)

/-- A command helper whose prints succeed. -/
def sampleCommandHelper (dryRun : Bool) : CommandHelper (List ClusterStore) where
  IsDryRun := dryRun
  CanChangeState := !dryRun
  PrintStatus := fun _ s => (none, s)
  PrintObj := fun _ s => (none, s)
  PrintResult := fun _ _ s => (none, s)
  PrintChangeResult := fun _ _ _ s => (none, s)

/-- A command helper whose output stream is closed: status lines are dropped, printing an
object fails. -/
def closedOutputCommandHelper : CommandHelper (List ClusterStore) where
  IsDryRun := false
  CanChangeState := true
  PrintStatus := fun _ s => (none, s)
  PrintObj := fun _ s => (some ⟨"write failed"⟩, s)
  PrintResult := fun _ _ s => (none, s)
  PrintChangeResult := fun _ _ _ s => (none, s)

/-- A sample environment: the factory methods name each source after its buildpackage
reference, and `AddToStore` appends the references that are not yet sources. -/
def sampleCmdEnv (ch : CommandHelper (List ClusterStore)) : CmdEnv (List ClusterStore) where
  GetClientSet := fun _ s => (.ok sampleClientSet, s)
  NewCommandHelper := fun s => (.ok ch, s)
  IsNotFound := fun err => err.msg = "not found"
  MakeStack := fun factory name buildImageRef runImageRef s =>
    (.ok { TypeMeta := ⟨"ClusterStack", "experimental.kpack.pivotal.io/v1alpha1"⟩
           ObjectMeta := ⟨name, []⟩
           Spec := ⟨"bionic", ⟨factory.Repository ++ "/build@" ++ buildImageRef⟩,
                    ⟨factory.Repository ++ "/run@" ++ runImageRef⟩⟩ }, s)
  MakeStore := fun _ name buildpackages s =>
    (.ok { ObjectMeta := ⟨name, []⟩, Spec := ⟨buildpackages.map StoreImage.mk⟩ }, s)
  AddToStore := fun _ store buildpackages s =>
    (.ok ({ store with Spec := ⟨store.Spec.Sources ++
              (buildpackages.map StoreImage.mk).filter (fun b => !store.Spec.Sources.contains b)⟩ },
          !((buildpackages.map StoreImage.mk).filter
              (fun b => !store.Spec.Sources.contains b)).isEmpty), s)

/-- A store factory as `newClusterStoreFactory` builds it in the sample cluster. -/
def sampleStoreFactory : commands.clusterstore.Factory where
  RelocatorChangeState := true
  TLSConfig := ⟨"", true⟩
  Repository := "canonical.example/repo"

/-- A stack factory as `newClusterStackFactory` builds it in the sample cluster. -/
def sampleStackFactory : commands.clusterstack.Factory where
  RelocatorChangeState := true
  TLSConfig := ⟨"", true⟩
  Repository := "canonical.example/repo"

/-- Sample store capabilities: every reference `r` fetches an image labelled with identity
`r` and version `1.0.0`; the digest of the image is `r` too. -/
def sampleStoreCapabilities : StoreCapabilities Nat where
  Fetch := fun ref n => (.ok { Digest := .ok ⟨"sha256", ref⟩, Labels := [("id", ref)] }, n + 1)
  Relocate := fun image dest n =>
    match image.Digest with
    | .ok d => (.ok (dest ++ "@" ++ d.String), n + 1)
    | .error err => (.error err, n)
  Inspect := fun image =>
    match image.Labels.lookup "id" with
    | some id => .ok ⟨id, "1.0.0", []⟩
    | none => .error ⟨"NotABuildpackage"⟩
  SourceMetadata := fun src =>
    if src.Image = "canonical.example/repo/my-store@sha256:aaaa" then some ⟨"aaaa", "1.0.0", []⟩
    else none

/-- A fetcher that also serves an image without a stack label. -/
def sampleUnlabelledFetcher : ImageFetcher Nat where
  Fetch := fun src n =>
    if src = "registry.example/unlabelled:v1" then (.ok sampleUnlabelledImage, n + 1)
    else sampleFetcher.Fetch src n

/-- The digits of a decimal numeral, most significant first, as a number. -/
def sampleDigits : List Char → Option Nat
  | [] => none
  | cs => cs.foldl (fun acc c =>
      match acc with
      | some n => if c.isDigit then some (10 * n + (c.toNat - '0'.toNat)) else none
      | none => none) (some 0)

/-- A sample `strconv.Atoi` for numerals made of an optional sign and decimal digits. -/
def sampleAtoi (s : String) : Except Error Int :=
  match s.data with
  | '-' :: cs =>
    match sampleDigits cs with
    | some n => .ok (-(n : Int))
    | none => .error ⟨"strconv.Atoi: parsing " ++ s ++ ": invalid syntax"⟩
  | '+' :: cs =>
    match sampleDigits cs with
    | some n => .ok (n : Int)
    | none => .error ⟨"strconv.Atoi: parsing " ++ s ++ ": invalid syntax"⟩
  | cs =>
    match sampleDigits cs with
    | some n => .ok (n : Int)
    | none => .error ⟨"strconv.Atoi: parsing " ++ s ++ ": invalid syntax"⟩

/-- A sample `sortBuilds`: the build at index `i` goes before the build at index `j` when it
was created earlier. -/
def sampleSortBuilds (builds : List Build) : Nat → Nat → Bool := fun i j =>
  match builds[i]?, builds[j]? with
  | some a, some b => decide (a.CreationTimestamp < b.CreationTimestamp)
  | _, _ => false

/-- Inserts the index `i` into a list of indices ordered by `less`. -/
def sampleInsertIndex (less : Nat → Nat → Bool) (i : Nat) : List Nat → List Nat
  | [] => [i]
  | j :: js => if less i j then i :: j :: js else j :: sampleInsertIndex less i js

/-- A sample `sort.Slice`: an insertion sort of the indices of the slice by `less`. -/
def sampleSortSlice (items : List Build) (less : Nat → Nat → Bool) : List Build :=
  ((List.range items.length).foldr (sampleInsertIndex less) []).filterMap (fun i => items[i]?)

/-- A build of the sample image with the given build number label and creation time. -/
def sampleBuild (number : String) (created : Int) : Build where
  Name := "my-image-build-" ++ number
  Labels := [("image.kpack.io/image", "my-image"), ("image.kpack.io/buildNumber", number)]
  Annotations := [("image.kpack.io/reason", "COMMIT")]
  CreationTimestamp := created
  Spec := { Builder := { Image := "registry.example/builder" },
            Source := { Git := none, Blob := some ⟨"https://example/blob.tgz"⟩ } }
  Status := { LatestImage := "registry.example/my-image:" ++ number,
              Stack := { RunImage := "registry.example/run" },
              BuildMetadata := [⟨"org.example.java", "1.2.3"⟩] }

/-- A sample environment of the build status command over a cluster that lists `builds` for
every image; the state is the text on the terminal. -/
def sampleStatusEnv (builds : List Build) : StatusEnv (List String) where
  BuildsList := fun _ _ out => (.ok ⟨builds⟩, out)
  ImageLabel := "image.kpack.io/image"
  BuildNumberLabel := "image.kpack.io/buildNumber"
  BuildReasonKey := "image.kpack.io/reason"
  Atoi := sampleAtoi
  sortBuilds := sampleSortBuilds
  SortSlice := sampleSortSlice
  getStatus := fun _ => "SUCCESS"
  Fprint := fun text out => (none, out ++ [text])
  Flush := fun out => (none, out)
  NewTableWriter := fun _ out => (none, out)
  AddRow := fun row out => (none, out ++ row)
  TableWrite := fun out => (none, out)

/-- Three builds of the sample image, listed out of order. -/
def sampleBuilds : List Build :=
  [sampleBuild "2" 200, sampleBuild "3" 300, sampleBuild "1" 100]

/-- Every step of a `MakeStack` call started in state `s` succeeds: the repository
validates, both fetches succeed, both StackIds are obtained and are equal, and both
relocations succeed. -/
def Factory.AllStepsSucceed {σ : Type} (d : Deps) (f : Factory σ) (s : σ) : Prop :=
  ∃ (ref : Reference) (buildImage runImage : Image) (S : String) (s1 s2 s3 s4 : σ)
    (rb rr : String),
    d.ParseReference f.Repository [NameOption.WeakValidation] = .ok ref ∧
    f.Fetcher.Fetch f.BuildImageRef s = (.ok buildImage, s1) ∧
    d.GetStackId buildImage = .ok S ∧
    f.Fetcher.Fetch f.RunImageRef s1 = (.ok runImage, s2) ∧
    d.GetStackId runImage = .ok S ∧
    f.Relocator.Relocate buildImage (Join [f.Repository, d.BuildImageName]) s2 = (.ok rb, s3) ∧
    f.Relocator.Relocate runImage (Join [f.Repository, d.RunImageName]) s3 = (.ok rr, s4)

/-! ## Theorems -/

/-! ### Auxiliary lemmas -/

/-- Every iteration of the loop of `path.Clean` advances the read index. -/
theorem Clean.step_advances (path : List Char) (rooted : Bool) (s : CleanState)
    (h : s.r < path.length) : s.r < (Clean.step path rooted s).r := by
  unfold Clean.step
  simp only []
  split
  · simp
  split
  · simp
  split
  · split
    · simp
    split <;> simp
  · rename_i h1 _ _
    have hne : path[s.r] ≠ '/' := by
      intro hc
      apply h1
      simp [List.getElem?_eq_getElem h, hc]
    have hdrop : path.drop s.r = path[s.r] :: path.drop (s.r + 1) :=
      List.drop_eq_getElem_cons h
    rw [hdrop, List.takeWhile_cons]
    simp [hne]

/-- With `path.length` iterations the loop of `path.Clean` reads the whole path: the fuel of
`Clean.loop` never runs out before the loop condition `r < n` fails. -/
theorem Clean.loop_reaches_end (path : List Char) (rooted : Bool) :
    ∀ (fuel : Nat) (s : CleanState), path.length - s.r ≤ fuel →
      path.length ≤ (Clean.loop path rooted fuel s).r := by
  intro fuel
  induction fuel with
  | zero =>
    intro s h
    simp only [Clean.loop]
    omega
  | succ n ih =>
    intro s h
    simp only [Clean.loop]
    split
    · rename_i hlt
      apply ih
      have := Clean.step_advances path rooted s hlt
      omega
    · omega

/-- The embedding of `path.Clean` and `path.Join` on the examples of the Go documentation
and on the destinations of the stack factory. -/
theorem Join_samples :
    Clean "a/c" = "a/c" ∧ Clean "a//c" = "a/c" ∧ Clean "a/c/." = "a/c" ∧
    Clean "a/c/b/.." = "a/c" ∧ Clean "/../a/c" = "/a/c" ∧
    Clean "/../a/b/../././/c" = "/a/c" ∧ Clean "" = "." ∧
    Join ["a", "b/c"] = "a/b/c" ∧ Join ["a/b", "../../../xyz"] = "../xyz" ∧
    Join ["", ""] = "" ∧ Join ["a", ""] = "a" ∧ Join ["", "a"] = "a" ∧
    Join ["canonical.example/repo", "build"] = "canonical.example/repo/build" ∧
    Join ["canonical.example/repo/", "run"] = "canonical.example/repo/run" := by
  decide

/-- The result of `MakeStack` is a stack with a nil error, or a nil stack with an error. -/
theorem MakeStack_result_shape {σ : Type} (d : Deps) (f : Factory σ) (name : String)
    (w : World σ) :
    (∃ stack, (f.MakeStack d name w).1 = (some stack, none)) ∨
    (∃ err, (f.MakeStack d name w).1 = (none, some err)) := by
  unfold Factory.MakeStack
  repeat' split
  all_goals simp

/-- `MakeStack` returns a stack exactly when every step succeeds. -/
theorem MakeStack_some_iff {σ : Type} (d : Deps) (f : Factory σ) (name : String)
    (w : World σ) :
    (∃ stack, (f.MakeStack d name w).1 = (some stack, none)) ↔ f.AllStepsSucceed d w.state := by
  constructor
  · rintro ⟨stack, hst⟩
    cases hrepo : d.ParseReference f.Repository [NameOption.WeakValidation] with
    | error e => simp [Factory.MakeStack, Factory.validate, hrepo] at hst
    | ok ref =>
    rcases hfb : f.Fetcher.Fetch f.BuildImageRef w.state with ⟨_ | bi, s1⟩
    · simp [Factory.MakeStack, Factory.validate, ImageFetcher.call, hrepo, hfb] at hst
    cases hsb : d.GetStackId bi with
    | error e =>
      simp [Factory.MakeStack, Factory.validate, ImageFetcher.call, hrepo, hfb, hsb] at hst
    | ok a =>
    rcases hfr : f.Fetcher.Fetch f.RunImageRef s1 with ⟨_ | ri, s2⟩
    · simp [Factory.MakeStack, Factory.validate, ImageFetcher.call, hrepo, hfb, hsb, hfr] at hst
    cases hsr : d.GetStackId ri with
    | error e =>
      simp [Factory.MakeStack, Factory.validate, ImageFetcher.call, hrepo, hfb, hsb, hfr,
        hsr] at hst
    | ok b =>
    by_cases hab : a = b
    swap
    · simp [Factory.MakeStack, Factory.validate, ImageFetcher.call, hrepo, hfb, hsb, hfr,
        hsr, hab] at hst
    subst hab
    rcases hrb : f.Relocator.Relocate bi (Join [f.Repository, d.BuildImageName]) s2
      with ⟨_ | rb, s3⟩
    · simp [Factory.MakeStack, Factory.validate, ImageFetcher.call, ImageRelocator.call,
        hrepo, hfb, hsb, hfr, hsr, hrb] at hst
    rcases hrr : f.Relocator.Relocate ri (Join [f.Repository, d.RunImageName]) s3
      with ⟨_ | rr, s4⟩
    · simp [Factory.MakeStack, Factory.validate, ImageFetcher.call, ImageRelocator.call,
        hrepo, hfb, hsb, hfr, hsr, hrb, hrr] at hst
    exact ⟨ref, bi, ri, a, s1, s2, s3, s4, rb, rr, hrepo, hfb, hsb, hfr, hsr, hrb, hrr⟩
  · rintro ⟨ref, bi, ri, S, s1, s2, s3, s4, rb, rr, h1, h2, h3, h4, h5, h6, h7⟩
    simp [Factory.MakeStack, Factory.validate, ImageFetcher.call, ImageRelocator.call,
      h1, h2, h3, h4, h5, h6, h7]

/-- The calls of one `MakeStack` call: an initial segment of build fetch, run fetch, build
relocation, run relocation. -/
theorem MakeStack_calls {σ : Type} (d : Deps) (f : Factory σ) (name : String) (w : World σ) :
    ∃ new, (f.MakeStack d name w).2.calls = w.calls ++ new ∧
      (new = [] ∨ new = [Call.Fetch f.BuildImageRef] ∨
        new = [Call.Fetch f.BuildImageRef, Call.Fetch f.RunImageRef] ∨
        (∃ bi, new = [Call.Fetch f.BuildImageRef, Call.Fetch f.RunImageRef,
          Call.Relocate bi (Join [f.Repository, d.BuildImageName])]) ∨
        (∃ bi ri, new = [Call.Fetch f.BuildImageRef, Call.Fetch f.RunImageRef,
          Call.Relocate bi (Join [f.Repository, d.BuildImageName]),
          Call.Relocate ri (Join [f.Repository, d.RunImageName])])) := by
  cases hrepo : d.ParseReference f.Repository [NameOption.WeakValidation] with
  | error e => exact ⟨[], by simp [Factory.MakeStack, Factory.validate, hrepo]⟩
  | ok ref =>
  rcases hfb : f.Fetcher.Fetch f.BuildImageRef w.state with ⟨_ | bi, s1⟩
  · exact ⟨[Call.Fetch f.BuildImageRef], by
      simp [Factory.MakeStack, Factory.validate, ImageFetcher.call, hrepo, hfb]⟩
  cases hsb : d.GetStackId bi with
  | error e =>
    exact ⟨[Call.Fetch f.BuildImageRef], by
      simp [Factory.MakeStack, Factory.validate, ImageFetcher.call, hrepo, hfb, hsb]⟩
  | ok a =>
  rcases hfr : f.Fetcher.Fetch f.RunImageRef s1 with ⟨_ | ri, s2⟩
  · exact ⟨[Call.Fetch f.BuildImageRef, Call.Fetch f.RunImageRef], by
      simp [Factory.MakeStack, Factory.validate, ImageFetcher.call, hrepo, hfb, hsb, hfr]⟩
  cases hsr : d.GetStackId ri with
  | error e =>
    exact ⟨[Call.Fetch f.BuildImageRef, Call.Fetch f.RunImageRef], by
      simp [Factory.MakeStack, Factory.validate, ImageFetcher.call, hrepo, hfb, hsb, hfr, hsr]⟩
  | ok b =>
  by_cases hab : a = b
  swap
  · exact ⟨[Call.Fetch f.BuildImageRef, Call.Fetch f.RunImageRef], by
      simp [Factory.MakeStack, Factory.validate, ImageFetcher.call, hrepo, hfb, hsb, hfr, hsr,
        hab]⟩
  subst hab
  rcases hrb : f.Relocator.Relocate bi (Join [f.Repository, d.BuildImageName]) s2
    with ⟨_ | rb, s3⟩
  · exact ⟨[Call.Fetch f.BuildImageRef, Call.Fetch f.RunImageRef,
        Call.Relocate bi (Join [f.Repository, d.BuildImageName])], by
      simp [Factory.MakeStack, Factory.validate, ImageFetcher.call, ImageRelocator.call,
        hrepo, hfb, hsb, hfr, hsr, hrb]⟩
  rcases hrr : f.Relocator.Relocate ri (Join [f.Repository, d.RunImageName]) s3
    with ⟨_ | rr, s4⟩
  · exact ⟨[Call.Fetch f.BuildImageRef, Call.Fetch f.RunImageRef,
        Call.Relocate bi (Join [f.Repository, d.BuildImageName]),
        Call.Relocate ri (Join [f.Repository, d.RunImageName])], by
      simp [Factory.MakeStack, Factory.validate, ImageFetcher.call, ImageRelocator.call,
        hrepo, hfb, hsb, hfr, hsr, hrb, hrr]⟩
  · exact ⟨[Call.Fetch f.BuildImageRef, Call.Fetch f.RunImageRef,
        Call.Relocate bi (Join [f.Repository, d.BuildImageName]),
        Call.Relocate ri (Join [f.Repository, d.RunImageName])], by
      simp [Factory.MakeStack, Factory.validate, ImageFetcher.call, ImageRelocator.call,
        hrepo, hfb, hsb, hfr, hsr, hrb, hrr]⟩

/-- The calls of `clusterstore.create` extend the log; none of them belongs to the update
path; `MakeStore` is called once the status line is printed, and outside a dry run `Create`
follows it with the store it returned. -/
theorem clusterstore_create_trace {σ : Type} (env : CmdEnv σ) (name : String)
    (buildpackages : List String) (factory : commands.clusterstore.Factory)
    (ch : CommandHelper σ) (cs : ClientSet σ) (w : CmdWorld σ) :
    ∃ l, (commands.clusterstore.create env name buildpackages factory ch cs w).2.calls
        = w.calls ++ l ∧
      (∀ c ∈ l, c.isUpdatePath = false) ∧
      (∀ s1, ch.PrintStatus "Creating ClusterStore..." w.state = (none, s1) →
        ∃ rest, l = [CmdCall.PrintStatus "Creating ClusterStore...",
          CmdCall.MakeStore name buildpackages] ++ rest) ∧
      (∀ s1 newStore s2, ch.PrintStatus "Creating ClusterStore..." w.state = (none, s1) →
        env.MakeStore factory name buildpackages s1 = (.ok newStore, s2) →
        ch.IsDryRun = false →
        ∃ rest, l = [CmdCall.PrintStatus "Creating ClusterStore...",
          CmdCall.MakeStore name buildpackages, CmdCall.ClusterStoresCreate newStore] ++ rest) := by
  rcases hps : ch.PrintStatus "Creating ClusterStore..." w.state with ⟨_ | e, s1⟩
  swap
  · exact ⟨[CmdCall.PrintStatus "Creating ClusterStore..."], by
      simp [commands.clusterstore.create, CmdWorld.logged, hps, CmdCall.isUpdatePath]⟩
  rcases hmk : env.MakeStore factory name buildpackages s1 with ⟨e | newStore, s2⟩
  · exact ⟨[CmdCall.PrintStatus "Creating ClusterStore...",
        CmdCall.MakeStore name buildpackages], by
      simp [commands.clusterstore.create, CmdWorld.logged, hps, hmk, CmdCall.isUpdatePath]
      intros
      simp_all⟩
  cases hdry : ch.IsDryRun
  · rcases hcr : cs.ClusterStoresCreate newStore s2 with ⟨e | created, s3⟩
    · exact ⟨[CmdCall.PrintStatus "Creating ClusterStore...",
          CmdCall.MakeStore name buildpackages, CmdCall.ClusterStoresCreate newStore], by
        simp [commands.clusterstore.create, CmdWorld.logged, hps, hmk, hdry, hcr,
          CmdCall.isUpdatePath]
        intros
        simp_all⟩
    rcases hpo : ch.PrintObj (Object.Store created) s3 with ⟨_ | e, s4⟩
    · exact ⟨[CmdCall.PrintStatus "Creating ClusterStore...",
          CmdCall.MakeStore name buildpackages, CmdCall.ClusterStoresCreate newStore,
          CmdCall.PrintObj (Object.Store created),
          CmdCall.PrintResult "ClusterStore %q created" [name]], by
        simp [commands.clusterstore.create, CmdWorld.logged, hps, hmk, hdry, hcr, hpo,
          CmdCall.isUpdatePath]
        intros
        simp_all⟩
    · exact ⟨[CmdCall.PrintStatus "Creating ClusterStore...",
          CmdCall.MakeStore name buildpackages, CmdCall.ClusterStoresCreate newStore,
          CmdCall.PrintObj (Object.Store created)], by
        simp [commands.clusterstore.create, CmdWorld.logged, hps, hmk, hdry, hcr, hpo,
          CmdCall.isUpdatePath]
        intros
        simp_all⟩
  · rcases hpo : ch.PrintObj (Object.Store newStore) s2 with ⟨_ | e, s4⟩
    · exact ⟨[CmdCall.PrintStatus "Creating ClusterStore...",
          CmdCall.MakeStore name buildpackages, CmdCall.PrintObj (Object.Store newStore),
          CmdCall.PrintResult "ClusterStore %q created" [name]], by
        simp [commands.clusterstore.create, CmdWorld.logged, hps, hmk, hdry, hpo,
          CmdCall.isUpdatePath]⟩
    · exact ⟨[CmdCall.PrintStatus "Creating ClusterStore...",
          CmdCall.MakeStore name buildpackages, CmdCall.PrintObj (Object.Store newStore)], by
        simp [commands.clusterstore.create, CmdWorld.logged, hps, hmk, hdry, hpo,
          CmdCall.isUpdatePath]⟩

/-- The calls of `clusterstore.update` extend the log; none of them belongs to the create
path; `AddToStore` is called on the given store once the status line is printed. -/
theorem clusterstore_update_trace {σ : Type} (env : CmdEnv σ) (store : ClusterStore)
    (buildpackages : List String) (factory : commands.clusterstore.Factory)
    (ch : CommandHelper σ) (cs : ClientSet σ) (w : CmdWorld σ) :
    ∃ l, (commands.clusterstore.update env store buildpackages factory ch cs w).2.calls
        = w.calls ++ l ∧
      (∀ c ∈ l, c.isCreatePath = false) ∧
      (∀ s1, ch.PrintStatus "Adding to ClusterStore..." w.state = (none, s1) →
        ∃ rest, l = [CmdCall.PrintStatus "Adding to ClusterStore...",
          CmdCall.AddToStore store buildpackages] ++ rest) := by
  rcases hps : ch.PrintStatus "Adding to ClusterStore..." w.state with ⟨_ | e, s1⟩
  swap
  · exact ⟨[CmdCall.PrintStatus "Adding to ClusterStore..."], by
      simp [commands.clusterstore.update, CmdWorld.logged, hps, CmdCall.isCreatePath]⟩
  rcases hadd : env.AddToStore factory store buildpackages s1
    with ⟨e | ⟨updatedStore, storeUpdated⟩, s2⟩
  · exact ⟨[CmdCall.PrintStatus "Adding to ClusterStore...",
        CmdCall.AddToStore store buildpackages], by
      simp [commands.clusterstore.update, CmdWorld.logged, hps, hadd, CmdCall.isCreatePath]⟩
  by_cases hwr : (storeUpdated && !ch.IsDryRun) = true
  · rcases hup : cs.ClusterStoresUpdate updatedStore s2 with ⟨e | written, s3⟩
    · exact ⟨[CmdCall.PrintStatus "Adding to ClusterStore...",
          CmdCall.AddToStore store buildpackages, CmdCall.ClusterStoresUpdate updatedStore], by
        simp [commands.clusterstore.update, CmdWorld.logged, hps, hadd, hwr, hup,
          CmdCall.isCreatePath]⟩
    rcases hpo : ch.PrintObj (Object.Store written) s3 with ⟨_ | e, s4⟩
    · exact ⟨[CmdCall.PrintStatus "Adding to ClusterStore...",
          CmdCall.AddToStore store buildpackages, CmdCall.ClusterStoresUpdate updatedStore,
          CmdCall.PrintObj (Object.Store written),
          CmdCall.PrintChangeResult storeUpdated "ClusterStore %q updated" [written.Name]], by
        simp [commands.clusterstore.update, CmdWorld.logged, hps, hadd, hwr, hup, hpo,
          CmdCall.isCreatePath]⟩
    · exact ⟨[CmdCall.PrintStatus "Adding to ClusterStore...",
          CmdCall.AddToStore store buildpackages, CmdCall.ClusterStoresUpdate updatedStore,
          CmdCall.PrintObj (Object.Store written)], by
        simp [commands.clusterstore.update, CmdWorld.logged, hps, hadd, hwr, hup, hpo,
          CmdCall.isCreatePath]⟩
  · rcases hpo : ch.PrintObj (Object.Store updatedStore) s2 with ⟨_ | e, s4⟩
    · exact ⟨[CmdCall.PrintStatus "Adding to ClusterStore...",
          CmdCall.AddToStore store buildpackages, CmdCall.PrintObj (Object.Store updatedStore),
          CmdCall.PrintChangeResult storeUpdated "ClusterStore %q updated"
            [updatedStore.Name]], by
        simp [commands.clusterstore.update, CmdWorld.logged, hps, hadd, hwr, hpo,
          CmdCall.isCreatePath]⟩
    · exact ⟨[CmdCall.PrintStatus "Adding to ClusterStore...",
          CmdCall.AddToStore store buildpackages, CmdCall.PrintObj (Object.Store updatedStore)], by
        simp [commands.clusterstore.update, CmdWorld.logged, hps, hadd, hwr, hpo,
          CmdCall.isCreatePath]⟩

/-- The read `s[len(s)-1]` of a non-empty slice is in bounds and yields its last element. -/
theorem sliceIndex_last {α : Type} (s : List α) (h : s ≠ []) :
    sliceIndex s ((s.length : Int) - 1) = .ok (s.getLast h) := by
  have hpos : 0 < s.length := List.length_pos.2 h
  have hcond : 0 ≤ (s.length : Int) - 1 ∧ (s.length : Int) - 1 < s.length := by omega
  have hnat : ((s.length : Int) - 1).toNat = s.length - 1 := by omega
  have hget : s[s.length - 1]? = some (s.getLast h) := by
    rw [List.getLast_eq_getElem, List.getElem?_eq_getElem]
  simp only [sliceIndex, hcond, and_self, if_true, hnat, hget]

/-- The loop of `findBuild` on a list whose first build numbered `n` is `b`: it returns `b`
after one `strconv.Atoi` call for each build up to `b`. -/
theorem findBuild_loop_first_match {σ : Type} (env : StatusEnv σ) (n : Int)
    (pre : List Build) (b : Build) (post : List Build)
    (hpre : ∀ x ∈ pre, ∃ v, env.Atoi (mapIndex x.Labels env.BuildNumberLabel) = .ok v ∧ v ≠ n)
    (hb : env.Atoi (mapIndex b.Labels env.BuildNumberLabel) = .ok n) :
    findBuild.loop env n (pre ++ b :: post)
      = (some (b, none), (pre ++ [b]).map
          (fun x => StatusCall.Atoi (mapIndex x.Labels env.BuildNumberLabel))) := by
  induction pre with
  | nil => simp [findBuild.loop, hb]
  | cons x xs ih =>
    obtain ⟨v, hv, hne⟩ := hpre x (List.mem_cons_self x xs)
    have ih1 := ih (fun y hy => hpre y (List.mem_cons_of_mem x hy))
    simp [findBuild.loop, hv, hne, ih1]

/-- The loop of `findBuild` on a list without a build numbered `n`: it ends without
returning, after one `strconv.Atoi` call for each build. -/
theorem findBuild_loop_no_match {σ : Type} (env : StatusEnv σ) (n : Int) (items : List Build)
    (hall : ∀ x ∈ items, ∃ v, env.Atoi (mapIndex x.Labels env.BuildNumberLabel) = .ok v ∧ v ≠ n) :
    findBuild.loop env n items
      = (none, items.map (fun x => StatusCall.Atoi (mapIndex x.Labels env.BuildNumberLabel))) := by
  induction items with
  | nil => simp [findBuild.loop]
  | cons x xs ih =>
    obtain ⟨v, hv, hne⟩ := hall x (List.mem_cons_self x xs)
    have ih1 := ih (fun y hy => hall y (List.mem_cons_of_mem x hy))
    simp [findBuild.loop, hv, hne, ih1]

/-- A build the loop of `findBuild` returns with a nil error is a build of the list whose
label parses to `n`. -/
theorem findBuild_loop_returned {σ : Type} (env : StatusEnv σ) (n : Int) (items : List Build)
    (b : Build) (h : (findBuild.loop env n items).1 = some (b, none)) :
    b ∈ items ∧ env.Atoi (mapIndex b.Labels env.BuildNumberLabel) = .ok n := by
  induction items with
  | nil => simp [findBuild.loop] at h
  | cons x xs ih =>
    unfold findBuild.loop at h
    cases hx : env.Atoi (mapIndex x.Labels env.BuildNumberLabel) with
    | error e => simp [hx] at h
    | ok v =>
      by_cases hv : v = n
      · simp [hx, hv] at h
        subst h
        subst hv
        exact ⟨List.mem_cons_self _ _, hx⟩
      · simp [hx, hv] at h
        exact ⟨List.mem_cons_of_mem _ (ih h).1, (ih h).2⟩

/-- The calls `findBuild` makes are `strconv.Atoi` calls. -/
theorem findBuild_loop_calls {σ : Type} (env : StatusEnv σ) (n : Int) (items : List Build) :
    ∀ c ∈ (findBuild.loop env n items).2, c.isFindBuild = false := by
  induction items with
  | nil => simp [findBuild.loop]
  | cons x xs ih =>
    unfold findBuild.loop
    cases hx : env.Atoi (mapIndex x.Labels env.BuildNumberLabel) with
    | error e => simp [StatusCall.isFindBuild]
    | ok v =>
      by_cases hv : v = n
      · simp [hv, StatusCall.isFindBuild]
      · simp only [beq_iff_eq, hv, if_false]
        intro c hc
        rcases List.mem_cons.1 hc with h | h
        · subst h
          rfl
        · exact ih c h

/-- The writes of `printAll` extend the log; none of them records a `findBuild` call. -/
theorem printAll_trace {σ : Type} (env : StatusEnv σ) (texts : List String) :
    ∀ w : StatusWorld σ, ∃ l, (printAll env texts w).2.calls = w.calls ++ l ∧
      ∀ c ∈ l, c.isFindBuild = false := by
  induction texts with
  | nil => exact fun w => ⟨[], by simp [printAll]⟩
  | cons text rest ih =>
    intro w
    rcases hp : env.Fprint text w.state with ⟨_ | e, s1⟩
    · obtain ⟨l, hl, hk⟩ := ih ⟨s1, w.calls ++ [StatusCall.Fprint text]⟩
      refine ⟨StatusCall.Fprint text :: l, ?_, ?_⟩
      · simp [printAll, StatusWorld.logged, hp, hl]
      · intro c hc
        rcases List.mem_cons.1 hc with h | h
        · subst h
          rfl
        · exact hk c h
    · exact ⟨[StatusCall.Fprint text], by
        simp [printAll, StatusWorld.logged, hp, StatusCall.isFindBuild]⟩

/-- The calls of the row loop of `displayBuildStatus` extend the log; none of them records
a `findBuild` call. -/
theorem displayBuildStatus_rows_trace {σ : Type} (env : StatusEnv σ)
    (rows : List BuildpackMetadata) :
    ∀ w : StatusWorld σ, ∃ l, (displayBuildStatus.rows env rows w).2.calls = w.calls ++ l ∧
      ∀ c ∈ l, c.isFindBuild = false := by
  induction rows with
  | nil => exact fun w => ⟨[], by simp [displayBuildStatus.rows]⟩
  | cons row rest ih =>
    intro w
    rcases hp : env.AddRow [row.Id, row.Version] w.state with ⟨_ | e, s1⟩
    · obtain ⟨l, hl, hk⟩ := ih ⟨s1, w.calls ++ [StatusCall.AddRow [row.Id, row.Version]]⟩
      refine ⟨StatusCall.AddRow [row.Id, row.Version] :: l, ?_, ?_⟩
      · simp [displayBuildStatus.rows, StatusWorld.logged, hp, hl]
      · intro c hc
        rcases List.mem_cons.1 hc with h | h
        · subst h
          rfl
        · exact hk c h
    · exact ⟨[StatusCall.AddRow [row.Id, row.Version]], by
        simp [displayBuildStatus.rows, StatusWorld.logged, hp, StatusCall.isFindBuild]⟩

/-- The calls of `displayBuildStatus` extend the log; none of them records a `findBuild`
call. -/
theorem displayBuildStatus_trace {σ : Type} (env : StatusEnv σ) (bld : Build)
    (w : StatusWorld σ) :
    ∃ l, (displayBuildStatus env bld w).2.calls = w.calls ++ l ∧
      ∀ c ∈ l, c.isFindBuild = false := by
  obtain ⟨l1, hl1, hk1⟩ := printAll_trace env
    (["Image:\t" ++ bld.Status.LatestImage ++ "\n",
      "Status:\t" ++ env.getStatus bld ++ "\n",
      "Reasons:\t" ++ mapIndex bld.Annotations env.BuildReasonKey ++ "\n\n",
      "Builder:\t" ++ bld.Spec.Builder.Image ++ "\n",
      "Run Image:\t" ++ bld.Status.Stack.RunImage ++ "\n\n"] ++
      displayBuildStatus.source bld ++ ["\n"]) w
  unfold displayBuildStatus
  split
  · rename_i err w1 heq
    rw [heq] at hl1
    exact ⟨l1, hl1, hk1⟩
  rename_i w1 heq
  rw [heq] at hl1
  simp only at hl1
  rcases hfl : env.Flush w1.state with ⟨_ | e, s2⟩
  swap
  · exact ⟨l1 ++ [StatusCall.Flush], by simp [StatusWorld.logged, hfl, hl1], by
      intro c hc
      rcases List.mem_append.1 hc with h | h
      · exact hk1 c h
      · simp at h
        subst h
        rfl⟩
  rcases htw : env.NewTableWriter ["Buildpack Id", "Buildpack Version"] s2 with ⟨_ | e, s3⟩
  swap
  · exact ⟨l1 ++ [StatusCall.Flush,
        StatusCall.NewTableWriter ["Buildpack Id", "Buildpack Version"]], by
      simp [StatusWorld.logged, hfl, htw, hl1], by
      intro c hc
      rcases List.mem_append.1 hc with h | h
      · exact hk1 c h
      · simp at h
        rcases h with h | h <;> subst h <;> rfl⟩
  obtain ⟨l2, hl2, hk2⟩ := displayBuildStatus_rows_trace env bld.Status.BuildMetadata
    ⟨s3, w1.calls ++ [StatusCall.Flush] ++
      [StatusCall.NewTableWriter ["Buildpack Id", "Buildpack Version"]]⟩
  have hmem : ∀ c ∈ l1 ++ [StatusCall.Flush,
      StatusCall.NewTableWriter ["Buildpack Id", "Buildpack Version"]] ++ l2,
      c.isFindBuild = false := by
    intro c hc
    rcases List.mem_append.1 hc with h | h
    · rcases List.mem_append.1 h with h | h
      · exact hk1 c h
      · simp at h
        rcases h with h | h <;> subst h <;> rfl
    · exact hk2 c h
  rcases hrows : displayBuildStatus.rows env bld.Status.BuildMetadata
      ⟨s3, w1.calls ++ [StatusCall.Flush] ++
        [StatusCall.NewTableWriter ["Buildpack Id", "Buildpack Version"]]⟩ with ⟨_ | e, w4⟩
  · rw [hrows] at hl2
    simp only at hl2
    refine ⟨l1 ++ [StatusCall.Flush,
      StatusCall.NewTableWriter ["Buildpack Id", "Buildpack Version"]] ++ l2 ++
      [StatusCall.TableWrite], ?_, ?_⟩
    · simp only [StatusWorld.logged, hfl, htw, hrows]
      simp [hl2, hl1]
    · intro c hc
      rcases List.mem_append.1 hc with h | h
      · exact hmem c h
      · simp at h
        subst h
        rfl
  · rw [hrows] at hl2
    simp only at hl2
    exact ⟨l1 ++ [StatusCall.Flush,
      StatusCall.NewTableWriter ["Buildpack Id", "Buildpack Version"]] ++ l2, by
      simp only [StatusWorld.logged, hfl, htw, hrows]
      simp [hl2, hl1], hmem⟩

/-- No log entry of `findBuild` itself records a `findBuild` call. -/
theorem findBuild_calls {σ : Type} (env : StatusEnv σ) (buildList : BuildList) (n : Int)
    (img ns : String) :
    ∀ c ∈ (findBuild env buildList n img ns).2, c.isFindBuild = false := by
  unfold findBuild
  by_cases hn : n = -1
  · subst hn
    cases sliceIndex buildList.Items ((buildList.Items.length : Int) - 1) <;> simp
  · have hloop := findBuild_loop_calls env n buildList.Items
    simp only [beq_iff_eq, hn, if_false]
    rcases hl : findBuild.loop env n buildList.Items with ⟨_ | r, calls⟩ <;>
      simpa [hl] using hloop

/-- On a non-empty list `findBuild` returns; it does not panic. -/
theorem findBuild_no_panic {σ : Type} (env : StatusEnv σ) (buildList : BuildList) (n : Int)
    (img ns : String) (h : buildList.Items ≠ []) :
    ∃ r, (findBuild env buildList n img ns).1 = .ok r := by
  unfold findBuild
  by_cases hn : n = -1
  · subst hn
    simp [sliceIndex_last buildList.Items h]
  · simp only [beq_iff_eq, hn, if_false]
    rcases hl : findBuild.loop env n buildList.Items with ⟨_ | r, calls⟩ <;> simp

/-! ### The claims -/

/-- C1 (MakeStack on a matching pair). When the repository parses, both images are fetched,
both yield the same StackId `S` and both relocations succeed, `MakeStack` returns a nil error
and a stack whose `Spec.Id` is `S` and whose two image fields are exactly the strings the
relocator returned for the build image at `path.Join(Repository, BuildImageName)` and for the
run image at `path.Join(Repository, RunImageName)`. -/
theorem MakeStack_matching_pair {σ : Type} (d : Deps) (f : Factory σ) (name : String)
    (w : World σ) (ref : Reference) (buildImage runImage : Image) (S : String)
    (s1 s2 s3 s4 : σ) (rb rr : String)
    (hrepo : d.ParseReference f.Repository [NameOption.WeakValidation] = .ok ref)
    (hfb : f.Fetcher.Fetch f.BuildImageRef w.state = (.ok buildImage, s1))
    (hsb : d.GetStackId buildImage = .ok S)
    (hfr : f.Fetcher.Fetch f.RunImageRef s1 = (.ok runImage, s2))
    (hsr : d.GetStackId runImage = .ok S)
    (hrb : f.Relocator.Relocate buildImage (Join [f.Repository, d.BuildImageName]) s2
      = (.ok rb, s3))
    (hrr : f.Relocator.Relocate runImage (Join [f.Repository, d.RunImageName]) s3
      = (.ok rr, s4)) :
    ∃ stack : ClusterStack, (f.MakeStack d name w).1 = (some stack, none) ∧
      stack.Spec.Id = S ∧ stack.Spec.BuildImage.Image = rb ∧ stack.Spec.RunImage.Image = rr := by
  simp [Factory.MakeStack, Factory.validate, ImageFetcher.call, ImageRelocator.call,
    hrepo, hfb, hsb, hfr, hsr, hrb, hrr]

/-- The spec's end-to-end scenario as an instance of `MakeStack_matching_pair`: images
labelled `bionic`, repository `canonical.example/repo` and the fake relocator give the id
`bionic` and the two references pinned to the digests of the build and the run image. -/
theorem MakeStack_matching_pair_witness :
    ∃ stack : ClusterStack,
      (sampleFactory.MakeStack sampleDeps "my-stack" ⟨0, []⟩).1 = (some stack, none) ∧
      stack.Spec.Id = "bionic" ∧
      stack.Spec.BuildImage.Image = "canonical.example/repo/build@sha256:b01d" ∧
      stack.Spec.RunImage.Image = "canonical.example/repo/run@sha256:4a11" :=
  MakeStack_matching_pair sampleDeps sampleFactory "my-stack" ⟨0, []⟩
    ⟨"canonical.example", "repo", "latest"⟩ sampleBuildImage sampleRunImage "bionic" 1 2 2 2
    "canonical.example/repo/build@sha256:b01d" "canonical.example/repo/run@sha256:4a11"
    (by decide) (by decide) (by decide) (by decide) (by decide) (by decide) (by decide)

/-- C2 (MakeStack on a mismatching pair). When both images are fetched and their StackIds
`a` and `b` are obtained but differ, `MakeStack` returns a nil stack and the stack-mismatch
error, whose message names both ids; the only collaborator calls are the two fetches, so the
relocator is not called and the outside world is left as the second fetch left it. -/
theorem MakeStack_mismatch {σ : Type} (d : Deps) (f : Factory σ) (name : String)
    (w : World σ) (ref : Reference) (buildImage runImage : Image) (a b : String) (s1 s2 : σ)
    (hrepo : d.ParseReference f.Repository [NameOption.WeakValidation] = .ok ref)
    (hfb : f.Fetcher.Fetch f.BuildImageRef w.state = (.ok buildImage, s1))
    (hsb : d.GetStackId buildImage = .ok a)
    (hfr : f.Fetcher.Fetch f.RunImageRef s1 = (.ok runImage, s2))
    (hsr : d.GetStackId runImage = .ok b)
    (hne : a ≠ b) :
    (f.MakeStack d name w).1 = (none, some (stackMismatch a b)) ∧
    (stackMismatch a b).msg = "build stack '" ++ a ++ "' does not match run stack '" ++ b ++ "'" ∧
    (f.MakeStack d name w).2.state = s2 ∧
    (f.MakeStack d name w).2.calls
      = w.calls ++ [Call.Fetch f.BuildImageRef, Call.Fetch f.RunImageRef] ∧
    ∀ image dest, Call.Relocate image dest ∉
      [Call.Fetch f.BuildImageRef, Call.Fetch f.RunImageRef] := by
  simp [Factory.MakeStack, Factory.validate, ImageFetcher.call, hrepo, hfb, hsb, hfr, hsr, hne,
    stackMismatch]

/-- An instance of `MakeStack_mismatch`: a `bionic` build image with a `focal` run image. -/
theorem MakeStack_mismatch_witness :
    ({ sampleFactory with RunImageRef := "registry.example/other-run:v1" }.MakeStack
        sampleDeps "my-stack" ⟨0, []⟩).1
      = (none, some ⟨"build stack 'bionic' does not match run stack 'focal'"⟩) ∧
    ({ sampleFactory with RunImageRef := "registry.example/other-run:v1" }.MakeStack
        sampleDeps "my-stack" ⟨0, []⟩).2.calls
      = [Call.Fetch "registry.example/build:v1", Call.Fetch "registry.example/other-run:v1"] :=
  have h := MakeStack_mismatch sampleDeps
    { sampleFactory with RunImageRef := "registry.example/other-run:v1" } "my-stack" ⟨0, []⟩
    ⟨"canonical.example", "repo", "latest"⟩ sampleBuildImage sampleOtherRunImage
    "bionic" "focal" 1 2
    (by decide) (by decide) (by decide) (by decide) (by decide) (by decide)
  ⟨h.1, h.2.2.2.1⟩

/-- C3 (MakeStack is all or nothing). `MakeStack` returns a stack with a nil error exactly when
the repository validates, both fetches succeed, both StackIds are obtained and equal and both
relocations succeed; otherwise it returns a nil stack with an error. The call stops at the
first failing step: the outside world and the call log are those reached by that step, so no
later `Fetch` or `Relocate` call is made (a failed relocation of the build image leaves the
run image unrelocated). -/
theorem MakeStack_all_or_nothing {σ : Type} (d : Deps) (f : Factory σ) (name : String)
    (w : World σ) :
    ((∃ stack, (f.MakeStack d name w).1 = (some stack, none)) ↔ f.AllStepsSucceed d w.state) ∧
    (¬ f.AllStepsSucceed d w.state → ∃ err, (f.MakeStack d name w).1 = (none, some err)) ∧
    (∀ e, d.ParseReference f.Repository [NameOption.WeakValidation] = .error e →
      f.MakeStack d name w = ((none, some e), w)) ∧
    (∀ ref, d.ParseReference f.Repository [NameOption.WeakValidation] = .ok ref →
      (∀ e s1, f.Fetcher.Fetch f.BuildImageRef w.state = (.error e, s1) →
        f.MakeStack d name w
          = ((none, some e), ⟨s1, w.calls ++ [Call.Fetch f.BuildImageRef]⟩)) ∧
      (∀ buildImage s1, f.Fetcher.Fetch f.BuildImageRef w.state = (.ok buildImage, s1) →
        (∀ e, d.GetStackId buildImage = .error e →
          f.MakeStack d name w
            = ((none, some e), ⟨s1, w.calls ++ [Call.Fetch f.BuildImageRef]⟩)) ∧
        (∀ a, d.GetStackId buildImage = .ok a →
          (∀ e s2, f.Fetcher.Fetch f.RunImageRef s1 = (.error e, s2) →
            f.MakeStack d name w = ((none, some e),
              ⟨s2, w.calls ++ [Call.Fetch f.BuildImageRef, Call.Fetch f.RunImageRef]⟩)) ∧
          (∀ runImage s2, f.Fetcher.Fetch f.RunImageRef s1 = (.ok runImage, s2) →
            (∀ e, d.GetStackId runImage = .error e →
              f.MakeStack d name w = ((none, some e),
                ⟨s2, w.calls ++ [Call.Fetch f.BuildImageRef, Call.Fetch f.RunImageRef]⟩)) ∧
            (∀ b, d.GetStackId runImage = .ok b → a ≠ b →
              f.MakeStack d name w = ((none, some (stackMismatch a b)),
                ⟨s2, w.calls ++ [Call.Fetch f.BuildImageRef, Call.Fetch f.RunImageRef]⟩)) ∧
            (d.GetStackId runImage = .ok a →
              (∀ e s3, f.Relocator.Relocate buildImage
                  (Join [f.Repository, d.BuildImageName]) s2 = (.error e, s3) →
                f.MakeStack d name w = ((none, some e),
                  ⟨s3, w.calls ++ [Call.Fetch f.BuildImageRef, Call.Fetch f.RunImageRef,
                    Call.Relocate buildImage (Join [f.Repository, d.BuildImageName])]⟩)) ∧
              (∀ rb s3, f.Relocator.Relocate buildImage
                  (Join [f.Repository, d.BuildImageName]) s2 = (.ok rb, s3) →
                ∀ e s4, f.Relocator.Relocate runImage
                    (Join [f.Repository, d.RunImageName]) s3 = (.error e, s4) →
                  f.MakeStack d name w = ((none, some e),
                    ⟨s4, w.calls ++ [Call.Fetch f.BuildImageRef, Call.Fetch f.RunImageRef,
                      Call.Relocate buildImage (Join [f.Repository, d.BuildImageName]),
                      Call.Relocate runImage (Join [f.Repository, d.RunImageName])]⟩))))))) := by
  refine ⟨MakeStack_some_iff d f name w, ?_, ?_, ?_⟩
  · intro hno
    rcases MakeStack_result_shape d f name w with h | h
    · exact absurd ((MakeStack_some_iff d f name w).1 h) hno
    · exact h
  · intro e he
    simp [Factory.MakeStack, Factory.validate, he]
  · intro ref hrepo
    refine ⟨?_, ?_⟩
    · intro e s1 hfb
      simp [Factory.MakeStack, Factory.validate, ImageFetcher.call, hrepo, hfb]
    intro bi s1 hfb
    refine ⟨?_, ?_⟩
    · intro e hsb
      simp [Factory.MakeStack, Factory.validate, ImageFetcher.call, hrepo, hfb, hsb]
    intro a hsb
    refine ⟨?_, ?_⟩
    · intro e s2 hfr
      simp [Factory.MakeStack, Factory.validate, ImageFetcher.call, hrepo, hfb, hsb, hfr]
    intro ri s2 hfr
    refine ⟨?_, ?_, ?_⟩
    · intro e hsr
      simp [Factory.MakeStack, Factory.validate, ImageFetcher.call, hrepo, hfb, hsb, hfr, hsr]
    · intro b hsr hne
      simp [Factory.MakeStack, Factory.validate, ImageFetcher.call, hrepo, hfb, hsb, hfr, hsr,
        hne]
    intro hsr
    refine ⟨?_, ?_⟩
    · intro e s3 hrb
      simp [Factory.MakeStack, Factory.validate, ImageFetcher.call, ImageRelocator.call,
        hrepo, hfb, hsb, hfr, hsr, hrb]
    · intro rb s3 hrb e s4 hrr
      simp [Factory.MakeStack, Factory.validate, ImageFetcher.call, ImageRelocator.call,
        hrepo, hfb, hsb, hfr, hsr, hrb, hrr]

/-- An instance of `MakeStack_all_or_nothing`: the digest of the build image cannot be read,
so its relocation fails; the call log ends with that relocation and the run image is not
relocated. -/
theorem MakeStack_all_or_nothing_witness :
    { sampleFactory with BuildImageRef := "registry.example/broken:v1" }.MakeStack
        sampleDeps "my-stack" ⟨0, []⟩
      = ((none, some ⟨"digest unavailable"⟩),
        ⟨2, [Call.Fetch "registry.example/broken:v1", Call.Fetch "registry.example/run:v1",
          Call.Relocate sampleBrokenImage "canonical.example/repo/build"]⟩) :=
  have h := (MakeStack_all_or_nothing sampleDeps
    { sampleFactory with BuildImageRef := "registry.example/broken:v1" } "my-stack"
    ⟨0, []⟩).2.2.2 ⟨"canonical.example", "repo", "latest"⟩ (by decide)
  have hb := (h.2 sampleBrokenImage 1 (by decide)).2 "bionic" (by decide)
  have hr := (hb.2 sampleRunImage 2 (by decide)).2.2 (by decide)
  hr.1 ⟨"digest unavailable"⟩ 2 (by decide)

/-- C4 (fetch errors are returned verbatim, without retry). When `Fetch` fails with `e` for
the build image reference, or for the run image reference after the build image was fetched
and its StackId obtained, `MakeStack` returns a nil stack and exactly `e`. In every call the
`Fetch` calls made are an initial segment of: one for the build image reference, then one for
the run image reference; so neither reference is fetched a second time, and when the two
references differ no reference occurs twice among the calls. -/
theorem MakeStack_fetch_error_verbatim {σ : Type} (d : Deps) (f : Factory σ) (name : String)
    (w : World σ) :
    (∀ ref e s1, d.ParseReference f.Repository [NameOption.WeakValidation] = .ok ref →
      f.Fetcher.Fetch f.BuildImageRef w.state = (.error e, s1) →
      (f.MakeStack d name w).1 = (none, some e)) ∧
    (∀ ref buildImage s1 a e s2,
      d.ParseReference f.Repository [NameOption.WeakValidation] = .ok ref →
      f.Fetcher.Fetch f.BuildImageRef w.state = (.ok buildImage, s1) →
      d.GetStackId buildImage = .ok a →
      f.Fetcher.Fetch f.RunImageRef s1 = (.error e, s2) →
      (f.MakeStack d name w).1 = (none, some e)) ∧
    ∃ new, (f.MakeStack d name w).2.calls = w.calls ++ new ∧
      new.filter Call.isFetch <+: [Call.Fetch f.BuildImageRef, Call.Fetch f.RunImageRef] ∧
      (f.BuildImageRef ≠ f.RunImageRef → ∀ src, new.count (Call.Fetch src) ≤ 1) := by
  refine ⟨?_, ?_, ?_⟩
  · intro ref e s1 hrepo hfb
    simp [Factory.MakeStack, Factory.validate, ImageFetcher.call, hrepo, hfb]
  · intro ref bi s1 a e s2 hrepo hfb hsb hfr
    simp [Factory.MakeStack, Factory.validate, ImageFetcher.call, hrepo, hfb, hsb, hfr]
  · obtain ⟨new, hnew, hcases⟩ := MakeStack_calls d f name w
    refine ⟨new, hnew, ?_, ?_⟩
    · rcases hcases with h | h | h | ⟨bi, h⟩ | ⟨bi, ri, h⟩ <;> subst h <;>
        simp [Call.isFetch, List.filter]
    · intro hne src
      rcases hcases with h | h | h | ⟨bi, h⟩ | ⟨bi, ri, h⟩ <;> subst h <;>
        simp [List.count_cons]
      all_goals split_ifs <;> simp_all

/-- An instance of `MakeStack_fetch_error_verbatim`: the run image reference is not served by
the registry; the error of the fetcher comes back unchanged. -/
theorem MakeStack_fetch_error_verbatim_witness :
    ({ sampleFactory with RunImageRef := "registry.example/missing:v1" }.MakeStack
        sampleDeps "my-stack" ⟨0, []⟩).1
      = (none, some ⟨"fetch failed: registry.example/missing:v1"⟩) :=
  (MakeStack_fetch_error_verbatim sampleDeps
    { sampleFactory with RunImageRef := "registry.example/missing:v1" } "my-stack"
    ⟨0, []⟩).2.1 ⟨"canonical.example", "repo", "latest"⟩ sampleBuildImage 1 "bionic"
    ⟨"fetch failed: registry.example/missing:v1"⟩ 2
    (by decide) (by decide) (by decide) (by decide)

/-- C5 (relocation is keyed by digest). For every destination, two images whose `Digest()`
results are equal are relocated by the fake relocator to the same reference string, with the
same error. -/
theorem Relocate_keyed_by_digest (ParseReference : ReferenceParser) (image1 image2 : Image)
    (dest : String) (w1 w2 : Writer) (tls1 tls2 : TLSConfig)
    (h : image1.Digest = image2.Digest) :
    Relocator.Relocate ParseReference image1 dest w1 tls1
      = Relocator.Relocate ParseReference image2 dest w2 tls2 := by
  simp [Relocator.Relocate, h]

/-- An instance of `Relocate_keyed_by_digest`: two images with the same digest and different
labels, relocated through different writers, give the same reference. -/
theorem Relocate_keyed_by_digest_witness :
    Relocator.Relocate sampleParseReference sampleBuildImage "canonical.example/repo/build"
        ⟨""⟩ ⟨"", true⟩
      = Relocator.Relocate sampleParseReference { sampleBuildImage with Labels := [] }
        "canonical.example/repo/build" ⟨"log"⟩ ⟨"/tmp/ca.crt", false⟩ ∧
    Relocator.Relocate sampleParseReference sampleBuildImage "canonical.example/repo/build"
        ⟨""⟩ ⟨"", true⟩
      = ("canonical.example/repo/build@sha256:b01d", none) :=
  ⟨Relocate_keyed_by_digest sampleParseReference sampleBuildImage
      { sampleBuildImage with Labels := [] } "canonical.example/repo/build"
      ⟨""⟩ ⟨"log"⟩ ⟨"", true⟩ ⟨"/tmp/ca.crt", false⟩ (by decide),
    by decide⟩

/-- C6 (relocated references are digest-pinned). When the digest `d` of the image is
available and `dest` parses, the fake relocator returns exactly
`<registry of dest>/<repository of dest>@<d>` with a nil error: the identifier (tag) of `dest`
does not occur in the result, and two destinations with the same registry and repository
give the same result. When the digest cannot be read, or `dest` does not parse, the result
is the empty string with the error. -/
theorem Relocate_digest_pinned (ParseReference : ReferenceParser) (image : Image)
    (dest : String) (w : Writer) (tls : TLSConfig) :
    (∀ d ref, image.Digest = .ok d → ParseReference dest [] = .ok ref →
      Relocator.Relocate ParseReference image dest w tls
        = (ref.RegistryStr ++ "/" ++ ref.RepositoryStr ++ "@" ++ d.String, none)) ∧
    (∀ d ref dest2 ref2, image.Digest = .ok d → ParseReference dest [] = .ok ref →
      ParseReference dest2 [] = .ok ref2 → ref.RegistryStr = ref2.RegistryStr →
      ref.RepositoryStr = ref2.RepositoryStr →
      Relocator.Relocate ParseReference image dest w tls
        = Relocator.Relocate ParseReference image dest2 w tls) ∧
    (∀ e, image.Digest = .error e →
      Relocator.Relocate ParseReference image dest w tls = ("", some e)) ∧
    (∀ d e, image.Digest = .ok d → ParseReference dest [] = .error e →
      Relocator.Relocate ParseReference image dest w tls = ("", some e)) := by
  refine ⟨?_, ?_, ?_, ?_⟩
  · intro d ref hd hp
    simp [Relocator.Relocate, hd, hp]
  · intro d ref dest2 ref2 hd hp hp2 hreg hrepo
    simp [Relocator.Relocate, hd, hp, hp2, hreg, hrepo]
  · intro e hd
    simp [Relocator.Relocate, hd]
  · intro d e hd hp
    simp [Relocator.Relocate, hd, hp]

/-- An instance of `Relocate_digest_pinned`: destinations tagged `v1` and `v2` both give the
untagged reference pinned to the digest of the image. -/
theorem Relocate_digest_pinned_witness :
    Relocator.Relocate sampleParseReference sampleBuildImage
        "canonical.example/repo/build:v1" ⟨""⟩ ⟨"", true⟩
      = ("canonical.example/repo/build@sha256:b01d", none) ∧
    Relocator.Relocate sampleParseReference sampleBuildImage
        "canonical.example/repo/build:v1" ⟨""⟩ ⟨"", true⟩
      = Relocator.Relocate sampleParseReference sampleBuildImage
        "canonical.example/repo/build:v2" ⟨""⟩ ⟨"", true⟩ :=
  ⟨(Relocate_digest_pinned sampleParseReference sampleBuildImage
      "canonical.example/repo/build:v1" ⟨""⟩ ⟨"", true⟩).1 ⟨"sha256", "b01d"⟩
      ⟨"canonical.example", "repo/build", "v1"⟩ (by decide) (by decide),
    (Relocate_digest_pinned sampleParseReference sampleBuildImage
      "canonical.example/repo/build:v1" ⟨""⟩ ⟨"", true⟩).2.1 ⟨"sha256", "b01d"⟩
      ⟨"canonical.example", "repo/build", "v1"⟩ "canonical.example/repo/build:v2"
      ⟨"canonical.example", "repo/build", "v2"⟩
      (by decide) (by decide) (by decide) (by decide) (by decide)⟩

/-- C7 as first stated fails: `AddToStore` reports `changed = false` for a buildpackage the
store already holds, no `Update` call is made, and yet the command returns an error, the one
`PrintObj` returned on a closed output stream. -/
theorem update_unchanged_can_fail :
    (sampleCmdEnv closedOutputCommandHelper).AddToStore sampleStoreFactory sampleStore
        ["canonical.example/repo/my-store@sha256:aaaa"] [sampleStore]
      = (.ok (sampleStore, false), [sampleStore]) ∧
    commands.clusterstore.update (sampleCmdEnv closedOutputCommandHelper) sampleStore
        ["canonical.example/repo/my-store@sha256:aaaa"] sampleStoreFactory
        closedOutputCommandHelper sampleClientSet ⟨[sampleStore], []⟩
      = (some ⟨"write failed"⟩, ⟨[sampleStore],
          [CmdCall.PrintStatus "Adding to ClusterStore...",
            CmdCall.AddToStore sampleStore ["canonical.example/repo/my-store@sha256:aaaa"],
            CmdCall.PrintObj (Object.Store sampleStore)]⟩) := by
  constructor <;> rfl

/-- C7, as amended (the store is written only when it changed). In `update`, the call
`ClusterStores().Update` is made exactly for the store `AddToStore` returned with
`changed = true`, outside a dry run. When `AddToStore` reports `changed = false`, no `Update`
call is made, the one object handed to `PrintObj` is the store `AddToStore` returned, and the
result of the command is that of its two prints: nil when `PrintObj` and `PrintChangeResult`
return nil, and otherwise the error of the print that failed. -/
theorem update_writes_only_when_changed {σ : Type} (env : CmdEnv σ) (store : ClusterStore)
    (buildpackages : List String) (factory : commands.clusterstore.Factory)
    (ch : CommandHelper σ) (cs : ClientSet σ) (w : CmdWorld σ) :
    (∀ st, CmdCall.ClusterStoresUpdate st ∈
        newCalls w (commands.clusterstore.update env store buildpackages factory ch cs w).2 ↔
      (ch.IsDryRun = false ∧ ∃ s1 s2,
        ch.PrintStatus "Adding to ClusterStore..." w.state = (none, s1) ∧
        env.AddToStore factory store buildpackages s1 = (.ok (st, true), s2))) ∧
    (∀ s1 updatedStore s2,
      ch.PrintStatus "Adding to ClusterStore..." w.state = (none, s1) →
      env.AddToStore factory store buildpackages s1 = (.ok (updatedStore, false), s2) →
      (∀ st, CmdCall.ClusterStoresUpdate st ∉
        newCalls w (commands.clusterstore.update env store buildpackages factory ch cs w).2) ∧
      (∀ obj, CmdCall.PrintObj obj ∈
          newCalls w (commands.clusterstore.update env store buildpackages factory ch cs w).2 ↔
        obj = Object.Store updatedStore) ∧
      (∀ s3 s4, ch.PrintObj (Object.Store updatedStore) s2 = (none, s3) →
        ch.PrintChangeResult false "ClusterStore %q updated" [updatedStore.Name] s3
          = (none, s4) →
        (commands.clusterstore.update env store buildpackages factory ch cs w).1 = none) ∧
      (∀ e s3, ch.PrintObj (Object.Store updatedStore) s2 = (some e, s3) →
        (commands.clusterstore.update env store buildpackages factory ch cs w).1 = some e) ∧
      (∀ s3 e s4, ch.PrintObj (Object.Store updatedStore) s2 = (none, s3) →
        ch.PrintChangeResult false "ClusterStore %q updated" [updatedStore.Name] s3
          = (some e, s4) →
        (commands.clusterstore.update env store buildpackages factory ch cs w).1 = some e)) := by
  refine ⟨?_, ?_⟩
  · rcases hps : ch.PrintStatus "Adding to ClusterStore..." w.state with ⟨_ | e, s1⟩
    swap
    · simp [commands.clusterstore.update, CmdWorld.logged, newCalls, hps]
    rcases hadd : env.AddToStore factory store buildpackages s1
      with ⟨e | ⟨updatedStore, storeUpdated⟩, s2⟩
    · simp [commands.clusterstore.update, CmdWorld.logged, newCalls, hps, hadd]
    cases storeUpdated
    · rcases hpo : ch.PrintObj (Object.Store updatedStore) s2 with ⟨_ | e, s3⟩ <;>
        simp [commands.clusterstore.update, CmdWorld.logged, newCalls, hps, hadd, hpo]
    cases hdry : ch.IsDryRun
    · rcases hup : cs.ClusterStoresUpdate updatedStore s2 with ⟨e | written, s3⟩
      · simp [commands.clusterstore.update, CmdWorld.logged, newCalls, hps, hadd, hdry, hup]
        exact fun _ => eq_comm
      rcases hpo : ch.PrintObj (Object.Store written) s3 with ⟨_ | e, s4⟩ <;>
        simp [commands.clusterstore.update, CmdWorld.logged, newCalls, hps, hadd, hdry, hup,
          hpo]
      all_goals exact fun _ => eq_comm
    · rcases hpo : ch.PrintObj (Object.Store updatedStore) s2 with ⟨_ | e, s4⟩ <;>
        simp [commands.clusterstore.update, CmdWorld.logged, newCalls, hps, hadd, hdry, hpo]
  · intro s1 updatedStore s2 hps hadd
    refine ⟨?_, ?_, ?_, ?_, ?_⟩
    · rcases hpo : ch.PrintObj (Object.Store updatedStore) s2 with ⟨_ | e, s3⟩ <;>
        simp [commands.clusterstore.update, CmdWorld.logged, newCalls, hps, hadd, hpo]
    · rcases hpo : ch.PrintObj (Object.Store updatedStore) s2 with ⟨_ | e, s3⟩ <;>
        simp [commands.clusterstore.update, CmdWorld.logged, newCalls, hps, hadd, hpo]
    · intro s3 s4 hpo hpc
      simp [commands.clusterstore.update, CmdWorld.logged, hps, hadd, hpo, hpc]
    · intro e s3 hpo
      simp [commands.clusterstore.update, CmdWorld.logged, hps, hadd, hpo]
    · intro s3 e s4 hpo hpc
      simp [commands.clusterstore.update, CmdWorld.logged, hps, hadd, hpo, hpc]

/-- An instance of `update_writes_only_when_changed`: re-adding a buildpackage the store
holds, with working output, returns no error and leaves the store unwritten. -/
theorem update_writes_only_when_changed_witness :
    (commands.clusterstore.update (sampleCmdEnv (sampleCommandHelper false)) sampleStore
        ["canonical.example/repo/my-store@sha256:aaaa"] sampleStoreFactory
        (sampleCommandHelper false) sampleClientSet ⟨[sampleStore], []⟩).1 = none ∧
    ∀ st, CmdCall.ClusterStoresUpdate st ∉
      newCalls ⟨[sampleStore], []⟩
        (commands.clusterstore.update (sampleCmdEnv (sampleCommandHelper false)) sampleStore
          ["canonical.example/repo/my-store@sha256:aaaa"] sampleStoreFactory
          (sampleCommandHelper false) sampleClientSet ⟨[sampleStore], []⟩).2 :=
  have h := (update_writes_only_when_changed (sampleCmdEnv (sampleCommandHelper false))
    sampleStore ["canonical.example/repo/my-store@sha256:aaaa"] sampleStoreFactory
    (sampleCommandHelper false) sampleClientSet ⟨[sampleStore], []⟩).2
    [sampleStore] sampleStore [sampleStore] rfl rfl
  ⟨h.2.2.1 [sampleStore] [sampleStore] rfl rfl, h.1⟩

/-- C8 (re-adding present buildpackages changes nothing). When every input reference is
fetched, relocated and inspected, and the (identity, version) pair of each is the inspected
metadata of some existing source, `AddToStore` returns `changed = false` and a spec equal to
the existing one. -/
theorem AddToStore_all_present {σ : Type} (c : StoreCapabilities σ)
    (canonicalRepo name : String) (existing : ClusterStoreSpec) (refs : List String) (s : σ)
    (ups : List (StoreImage × BuildpackageMetadata)) (s1 : σ)
    (hup : uploadBuildpackages c canonicalRepo name refs s = (.ok ups, s1))
    (hpresent : ∀ up ∈ ups, ∃ src ∈ existing.Sources, ∃ m,
      c.SourceMetadata src = some m ∧ m.Id = up.2.Id ∧ m.Version = up.2.Version) :
    AddToStore c canonicalRepo name existing refs s = (.ok (existing, false), s1) := by
  have hfilter : ups.filter (fun up => !alreadyPresent c existing up.2) = [] := by
    rw [List.filter_eq_nil_iff]
    intro up hmem
    obtain ⟨src, hsrc, m, hm, hid, hver⟩ := hpresent up hmem
    have : alreadyPresent c existing up.2 = true := by
      unfold alreadyPresent
      rw [List.any_eq_true]
      exact ⟨src, hsrc, by simp [hm, hid, hver]⟩
    simp [this]
  simp [AddToStore, hup, hfilter]

/-- An instance of `AddToStore_all_present`: the buildpackage `aaaa` is added twice to a store
that already holds it. -/
theorem AddToStore_all_present_witness :
    AddToStore sampleStoreCapabilities "canonical.example/repo" "my-store" sampleStore.Spec
        ["aaaa", "aaaa"] 0
      = (.ok (sampleStore.Spec, false), 4) :=
  AddToStore_all_present sampleStoreCapabilities "canonical.example/repo" "my-store"
    sampleStore.Spec ["aaaa", "aaaa"] 0
    [(⟨"canonical.example/repo/my-store@sha256:aaaa"⟩, ⟨"aaaa", "1.0.0", []⟩),
      (⟨"canonical.example/repo/my-store@sha256:aaaa"⟩, ⟨"aaaa", "1.0.0", []⟩)] 4
    (by decide) (by decide)

/-- C9 (save creates a missing store and updates an existing one). Once the client set, the
command helper and the factory are built, `clusterstore save` continues by the result of
`Get(name)`: on a NotFound error it runs `create` (which calls `MakeStore` and, outside a dry
run, `Create` right after it) and makes no call of the update path; on success it runs
`update` on the fetched store (which calls `AddToStore` on it) and makes no call of the create
path; on any other error it returns that error right after the `Get` call. -/
theorem save_creates_or_updates {σ : Type} (env : CmdEnv σ) (buildpackages : List String)
    (tlsCfg : TLSConfig) (args : List String) (w : CmdWorld σ)
    (cs : ClientSet σ) (ch : CommandHelper σ) (repo : String) (s1 s2 s3 : σ)
    (hcs : env.GetClientSet "" w.state = (.ok cs, s1))
    (hch : env.NewCommandHelper s1 = (.ok ch, s2))
    (hrepo : cs.GetCanonicalRepository s2 = (.ok repo, s3)) :
    (∀ e s4, cs.ClusterStoresGet (args.getD 0 "") s3 = (.error e, s4) →
      env.IsNotFound e = true →
      commands.clusterstore.NewSaveCommand.RunE env buildpackages tlsCfg args w
        = commands.clusterstore.create env (args.getD 0 "") buildpackages
            ⟨ch.CanChangeState, tlsCfg, repo⟩ ch cs
            ⟨s4, w.calls ++ [CmdCall.GetClientSet "", CmdCall.NewCommandHelper,
              CmdCall.GetCanonicalRepository, CmdCall.ClusterStoresGet (args.getD 0 "")]⟩ ∧
      (∀ c ∈ newCalls w
          (commands.clusterstore.NewSaveCommand.RunE env buildpackages tlsCfg args w).2,
        c.isUpdatePath = false) ∧
      (∀ s5, ch.PrintStatus "Creating ClusterStore..." s4 = (none, s5) →
        CmdCall.MakeStore (args.getD 0 "") buildpackages ∈ newCalls w
          (commands.clusterstore.NewSaveCommand.RunE env buildpackages tlsCfg args w).2) ∧
      (∀ s5 newStore s6, ch.PrintStatus "Creating ClusterStore..." s4 = (none, s5) →
        env.MakeStore ⟨ch.CanChangeState, tlsCfg, repo⟩ (args.getD 0 "") buildpackages s5
          = (.ok newStore, s6) →
        ch.IsDryRun = false →
        ∃ pre rest, newCalls w
            (commands.clusterstore.NewSaveCommand.RunE env buildpackages tlsCfg args w).2
          = pre ++ [CmdCall.MakeStore (args.getD 0 "") buildpackages,
              CmdCall.ClusterStoresCreate newStore] ++ rest)) ∧
    (∀ store s4, cs.ClusterStoresGet (args.getD 0 "") s3 = (.ok store, s4) →
      commands.clusterstore.NewSaveCommand.RunE env buildpackages tlsCfg args w
        = commands.clusterstore.update env store buildpackages
            ⟨ch.CanChangeState, tlsCfg, repo⟩ ch cs
            ⟨s4, w.calls ++ [CmdCall.GetClientSet "", CmdCall.NewCommandHelper,
              CmdCall.GetCanonicalRepository, CmdCall.ClusterStoresGet (args.getD 0 "")]⟩ ∧
      (∀ c ∈ newCalls w
          (commands.clusterstore.NewSaveCommand.RunE env buildpackages tlsCfg args w).2,
        c.isCreatePath = false) ∧
      (∀ s5, ch.PrintStatus "Adding to ClusterStore..." s4 = (none, s5) →
        CmdCall.AddToStore store buildpackages ∈ newCalls w
          (commands.clusterstore.NewSaveCommand.RunE env buildpackages tlsCfg args w).2)) ∧
    (∀ e s4, cs.ClusterStoresGet (args.getD 0 "") s3 = (.error e, s4) →
      env.IsNotFound e = false →
      commands.clusterstore.NewSaveCommand.RunE env buildpackages tlsCfg args w
        = (some e, ⟨s4, w.calls ++ [CmdCall.GetClientSet "", CmdCall.NewCommandHelper,
              CmdCall.GetCanonicalRepository, CmdCall.ClusterStoresGet (args.getD 0 "")]⟩)) := by
  refine ⟨?_, ?_, ?_⟩
  · intro e s4 hget hnf
    have hrun : commands.clusterstore.NewSaveCommand.RunE env buildpackages tlsCfg args w
        = commands.clusterstore.create env (args.getD 0 "") buildpackages
            ⟨ch.CanChangeState, tlsCfg, repo⟩ ch cs
            ⟨s4, w.calls ++ [CmdCall.GetClientSet "", CmdCall.NewCommandHelper,
              CmdCall.GetCanonicalRepository, CmdCall.ClusterStoresGet (args.getD 0 "")]⟩ := by
      simp [-List.getD_eq_getElem?_getD, commands.clusterstore.NewSaveCommand.RunE,
        commands.clusterstore.newClusterStoreFactory, CmdWorld.logged, hcs, hch, hrepo, hget,
        hnf]
    obtain ⟨l, hl, hkind, hmk, hcr⟩ := clusterstore_create_trace env (args.getD 0 "")
      buildpackages ⟨ch.CanChangeState, tlsCfg, repo⟩ ch cs
      ⟨s4, w.calls ++ [CmdCall.GetClientSet "", CmdCall.NewCommandHelper,
        CmdCall.GetCanonicalRepository, CmdCall.ClusterStoresGet (args.getD 0 "")]⟩
    refine ⟨hrun, ?_, ?_, ?_⟩
    · intro c hc
      rw [hrun] at hc
      simp only [newCalls, hl, List.append_assoc, List.drop_left] at hc
      rcases List.mem_append.1 hc with h | h
      · simp at h
        rcases h with h | h | h | h <;> subst h <;> rfl
      · exact hkind c h
    · intro s5 hps
      obtain ⟨rest, hrest⟩ := hmk s5 hps
      rw [hrun]
      simp [-List.getD_eq_getElem?_getD, newCalls, hl, hrest]
    · intro s5 newStore s6 hps hms hdry
      obtain ⟨rest, hrest⟩ := hcr s5 newStore s6 hps hms hdry
      rw [hrun]
      refine ⟨[CmdCall.GetClientSet "", CmdCall.NewCommandHelper,
        CmdCall.GetCanonicalRepository, CmdCall.ClusterStoresGet (args.getD 0 ""),
        CmdCall.PrintStatus "Creating ClusterStore..."], rest, ?_⟩
      simp [-List.getD_eq_getElem?_getD, newCalls, hl, hrest]
  · intro store s4 hget
    have hrun : commands.clusterstore.NewSaveCommand.RunE env buildpackages tlsCfg args w
        = commands.clusterstore.update env store buildpackages
            ⟨ch.CanChangeState, tlsCfg, repo⟩ ch cs
            ⟨s4, w.calls ++ [CmdCall.GetClientSet "", CmdCall.NewCommandHelper,
              CmdCall.GetCanonicalRepository, CmdCall.ClusterStoresGet (args.getD 0 "")]⟩ := by
      simp [-List.getD_eq_getElem?_getD, commands.clusterstore.NewSaveCommand.RunE,
        commands.clusterstore.newClusterStoreFactory, CmdWorld.logged, hcs, hch, hrepo, hget]
    obtain ⟨l, hl, hkind, hadd⟩ := clusterstore_update_trace env store
      buildpackages ⟨ch.CanChangeState, tlsCfg, repo⟩ ch cs
      ⟨s4, w.calls ++ [CmdCall.GetClientSet "", CmdCall.NewCommandHelper,
        CmdCall.GetCanonicalRepository, CmdCall.ClusterStoresGet (args.getD 0 "")]⟩
    refine ⟨hrun, ?_, ?_⟩
    · intro c hc
      rw [hrun] at hc
      simp only [newCalls, hl, List.append_assoc, List.drop_left] at hc
      rcases List.mem_append.1 hc with h | h
      · simp at h
        rcases h with h | h | h | h <;> subst h <;> rfl
      · exact hkind c h
    · intro s5 hps
      obtain ⟨rest, hrest⟩ := hadd s5 hps
      rw [hrun]
      simp [-List.getD_eq_getElem?_getD, newCalls, hl, hrest]
  · intro e s4 hget hnf
    simp [-List.getD_eq_getElem?_getD, commands.clusterstore.NewSaveCommand.RunE,
      commands.clusterstore.newClusterStoreFactory, CmdWorld.logged, hcs, hch, hrepo, hget, hnf]

/-- An instance of `save_creates_or_updates`: on an empty cluster `save` runs `create`, and
the store is created. -/
theorem save_creates_or_updates_witness :
    commands.clusterstore.NewSaveCommand.RunE (sampleCmdEnv (sampleCommandHelper false))
        ["bp-a"] ⟨"", true⟩ ["my-store"] ⟨[], []⟩
      = commands.clusterstore.create (sampleCmdEnv (sampleCommandHelper false)) "my-store"
          ["bp-a"] ⟨true, ⟨"", true⟩, "canonical.example/repo"⟩ (sampleCommandHelper false)
          sampleClientSet
          ⟨[], [CmdCall.GetClientSet "", CmdCall.NewCommandHelper,
            CmdCall.GetCanonicalRepository, CmdCall.ClusterStoresGet "my-store"]⟩ ∧
    (commands.clusterstore.NewSaveCommand.RunE (sampleCmdEnv (sampleCommandHelper false))
        ["bp-a"] ⟨"", true⟩ ["my-store"] ⟨[], []⟩).2.state
      = [{ ObjectMeta := ⟨"my-store", []⟩, Spec := ⟨[⟨"bp-a"⟩]⟩ }] :=
  ⟨((save_creates_or_updates (sampleCmdEnv (sampleCommandHelper false)) ["bp-a"] ⟨"", true⟩
      ["my-store"] ⟨[], []⟩ sampleClientSet (sampleCommandHelper false)
      "canonical.example/repo" [] [] [] rfl rfl rfl).1 ⟨"not found"⟩ [] rfl rfl).1,
    by decide⟩

/-- C10 (a dry run makes no cluster call). In `create` of `clusterstack` and of
`clusterstore`, the Kubernetes `Create` call is made exactly when the status line was printed,
the factory (`MakeStack`, `MakeStore`) returned an object and `IsDryRun()` is false, and it is
made for that object. Under a dry run the only calls are the status line, the factory call
and the two prints, so no `Create` call is made; the factory is called exactly when the status
line was printed; and `PrintObj` is called exactly for the object the factory returned: that
object is printed whenever the factory succeeds, and nothing else is. -/
theorem create_dry_run_makes_no_cluster_call {σ : Type} (env : CmdEnv σ)
    (name buildImageRef runImageRef : String) (buildpackages : List String)
    (stackFactory : commands.clusterstack.Factory) (factory : commands.clusterstore.Factory)
    (ch : CommandHelper σ) (cs : ClientSet σ) (w : CmdWorld σ) :
    ((∀ st, CmdCall.ClusterStacksCreate st ∈ newCalls w
         (commands.clusterstack.create env name buildImageRef runImageRef stackFactory ch cs w).2 ↔
       (ch.IsDryRun = false ∧ ∃ s1 s2,
         ch.PrintStatus "Creating ClusterStack..." w.state = (none, s1) ∧
         env.MakeStack stackFactory name buildImageRef runImageRef s1 = (.ok st, s2))) ∧
     (ch.IsDryRun = true →
       (∀ c ∈ newCalls w
           (commands.clusterstack.create env name buildImageRef runImageRef stackFactory ch cs w).2,
         c = CmdCall.PrintStatus "Creating ClusterStack..." ∨
         c = CmdCall.MakeStack name buildImageRef runImageRef ∨
         (∃ obj, c = CmdCall.PrintObj obj) ∨
         c = CmdCall.PrintResult "ClusterStack %q created" [name]) ∧
       (∀ obj, CmdCall.PrintObj obj ∈ newCalls w
           (commands.clusterstack.create env name buildImageRef runImageRef stackFactory ch cs w).2 ↔
         ∃ s1 stack s2, ch.PrintStatus "Creating ClusterStack..." w.state = (none, s1) ∧
           env.MakeStack stackFactory name buildImageRef runImageRef s1 = (.ok stack, s2) ∧
           obj = Object.Stack stack) ∧
       (CmdCall.MakeStack name buildImageRef runImageRef ∈ newCalls w
           (commands.clusterstack.create env name buildImageRef runImageRef stackFactory ch cs w).2 ↔
         ∃ s1, ch.PrintStatus "Creating ClusterStack..." w.state = (none, s1)))) ∧
    ((∀ st, CmdCall.ClusterStoresCreate st ∈
         newCalls w (commands.clusterstore.create env name buildpackages factory ch cs w).2 ↔
       (ch.IsDryRun = false ∧ ∃ s1 s2,
         ch.PrintStatus "Creating ClusterStore..." w.state = (none, s1) ∧
         env.MakeStore factory name buildpackages s1 = (.ok st, s2))) ∧
     (ch.IsDryRun = true →
       (∀ c ∈ newCalls w (commands.clusterstore.create env name buildpackages factory ch cs w).2,
         c = CmdCall.PrintStatus "Creating ClusterStore..." ∨
         c = CmdCall.MakeStore name buildpackages ∨
         (∃ obj, c = CmdCall.PrintObj obj) ∨
         c = CmdCall.PrintResult "ClusterStore %q created" [name]) ∧
       (∀ obj, CmdCall.PrintObj obj ∈
           newCalls w (commands.clusterstore.create env name buildpackages factory ch cs w).2 ↔
         ∃ s1 newStore s2, ch.PrintStatus "Creating ClusterStore..." w.state = (none, s1) ∧
           env.MakeStore factory name buildpackages s1 = (.ok newStore, s2) ∧
           obj = Object.Store newStore) ∧
       (CmdCall.MakeStore name buildpackages ∈
           newCalls w (commands.clusterstore.create env name buildpackages factory ch cs w).2 ↔
         ∃ s1, ch.PrintStatus "Creating ClusterStore..." w.state = (none, s1)))) := by
  refine ⟨?_, ?_⟩
  · rcases hps : ch.PrintStatus "Creating ClusterStack..." w.state with ⟨_ | e, s1⟩
    swap
    · simp [commands.clusterstack.create, CmdWorld.logged, newCalls, hps]
    rcases hmk : env.MakeStack stackFactory name buildImageRef runImageRef s1 with ⟨e | stack, s2⟩
    · simp [commands.clusterstack.create, CmdWorld.logged, newCalls, hps, hmk]
    cases hdry : ch.IsDryRun
    · rcases hcr : cs.ClusterStacksCreate stack s2 with ⟨e | created, s3⟩
      · simp [commands.clusterstack.create, CmdWorld.logged, newCalls, hps, hmk, hdry, hcr]
        exact fun _ => eq_comm
      rcases hpo : ch.PrintObj (Object.Stack created) s3 with ⟨_ | e, s4⟩ <;>
        simp [commands.clusterstack.create, CmdWorld.logged, newCalls, hps, hmk, hdry, hcr, hpo]
      all_goals exact fun _ => eq_comm
    · rcases hpo : ch.PrintObj (Object.Stack stack) s2 with ⟨_ | e, s4⟩ <;>
        simp [commands.clusterstack.create, CmdWorld.logged, newCalls, hps, hmk, hdry, hpo]
  · rcases hps : ch.PrintStatus "Creating ClusterStore..." w.state with ⟨_ | e, s1⟩
    swap
    · simp [commands.clusterstore.create, CmdWorld.logged, newCalls, hps]
    rcases hmk : env.MakeStore factory name buildpackages s1 with ⟨e | newStore, s2⟩
    · simp [commands.clusterstore.create, CmdWorld.logged, newCalls, hps, hmk]
    cases hdry : ch.IsDryRun
    · rcases hcr : cs.ClusterStoresCreate newStore s2 with ⟨e | created, s3⟩
      · simp [commands.clusterstore.create, CmdWorld.logged, newCalls, hps, hmk, hdry, hcr]
        exact fun _ => eq_comm
      rcases hpo : ch.PrintObj (Object.Store created) s3 with ⟨_ | e, s4⟩ <;>
        simp [commands.clusterstore.create, CmdWorld.logged, newCalls, hps, hmk, hdry, hcr, hpo]
      all_goals exact fun _ => eq_comm
    · rcases hpo : ch.PrintObj (Object.Store newStore) s2 with ⟨_ | e, s4⟩ <;>
        simp [commands.clusterstore.create, CmdWorld.logged, newCalls, hps, hmk, hdry, hpo]

/-- An instance of `create_dry_run_makes_no_cluster_call`: under a dry run `clusterstore
create` makes no `Create` call, prints the store `MakeStore` returned and leaves the cluster
empty. -/
theorem create_dry_run_makes_no_cluster_call_witness :
    (∀ st, CmdCall.ClusterStoresCreate st ∉
      newCalls ⟨[], []⟩
        (commands.clusterstore.create (sampleCmdEnv (sampleCommandHelper true)) "my-store"
          ["bp-a"] sampleStoreFactory (sampleCommandHelper true) sampleClientSet ⟨[], []⟩).2) ∧
    CmdCall.PrintObj (Object.Store { ObjectMeta := ⟨"my-store", []⟩, Spec := ⟨[⟨"bp-a"⟩]⟩ }) ∈
      newCalls ⟨[], []⟩
        (commands.clusterstore.create (sampleCmdEnv (sampleCommandHelper true)) "my-store"
          ["bp-a"] sampleStoreFactory (sampleCommandHelper true) sampleClientSet ⟨[], []⟩).2 ∧
    (commands.clusterstore.create (sampleCmdEnv (sampleCommandHelper true)) "my-store"
        ["bp-a"] sampleStoreFactory (sampleCommandHelper true) sampleClientSet ⟨[], []⟩).2.state
      = [] :=
  ⟨fun st hmem =>
      absurd (((create_dry_run_makes_no_cluster_call (sampleCmdEnv (sampleCommandHelper true))
        "my-store" "" "" ["bp-a"] sampleStackFactory sampleStoreFactory
        (sampleCommandHelper true) sampleClientSet ⟨[], []⟩).2.1 st).1 hmem).1 (by decide),
    (((create_dry_run_makes_no_cluster_call (sampleCmdEnv (sampleCommandHelper true))
        "my-store" "" "" ["bp-a"] sampleStackFactory sampleStoreFactory
        (sampleCommandHelper true) sampleClientSet ⟨[], []⟩).2.2 rfl).2.1
        (Object.Store { ObjectMeta := ⟨"my-store", []⟩, Spec := ⟨[⟨"bp-a"⟩]⟩ })).2
      ⟨[], { ObjectMeta := ⟨"my-store", []⟩, Spec := ⟨[⟨"bp-a"⟩]⟩ }, [], rfl, rfl, rfl⟩,
    by decide⟩

/-- C11 (without a build number the last build is shown). With `buildNumber = -1` and a
non-empty list, `findBuild` returns the last element of the list with a nil error and makes
no `strconv.Atoi` call, whatever the labels are. In the command, when the image has at least
one build, the list handed to `findBuild` is the one `sort.Slice` ordered by `sortBuilds`, and
the build displayed is its last element. -/
theorem findBuild_default_returns_last {σ : Type} (env : StatusEnv σ) :
    (∀ (buildList : BuildList) (img ns : String) (h : buildList.Items ≠ []),
      findBuild env buildList (-1) img ns = (.ok (buildList.Items.getLast h, none), [])) ∧
    (∀ (ns : String) (args : List String) (w : StatusWorld σ) (items : List Build) (s1 : σ)
      (hsorted : env.SortSlice items (env.sortBuilds items) ≠ []),
      env.BuildsList ns (env.ImageLabel ++ "=" ++ args.getD 0 "") w.state = (.ok ⟨items⟩, s1) →
      items ≠ [] →
      commands.build.NewStatusCommand.RunE env ns (-1) args w
        = (.ok (displayBuildStatus env
              ((env.SortSlice items (env.sortBuilds items)).getLast hsorted)
              ⟨s1, w.calls ++ [StatusCall.BuildsList ns (env.ImageLabel ++ "=" ++ args.getD 0 ""),
                StatusCall.findBuild (env.SortSlice items (env.sortBuilds items)) (-1)]⟩).1,
            (displayBuildStatus env
              ((env.SortSlice items (env.sortBuilds items)).getLast hsorted)
              ⟨s1, w.calls ++ [StatusCall.BuildsList ns (env.ImageLabel ++ "=" ++ args.getD 0 ""),
                StatusCall.findBuild (env.SortSlice items (env.sortBuilds items)) (-1)]⟩).2)) := by
  have hfind : ∀ (buildList : BuildList) (img ns : String) (h : buildList.Items ≠ []),
      findBuild env buildList (-1) img ns = (.ok (buildList.Items.getLast h, none), []) := by
    intro buildList img ns h
    simp [findBuild, sliceIndex_last buildList.Items h]
  refine ⟨hfind, ?_⟩
  intro ns args w items s1 hsorted hlist hne
  have hlen : items.length ≠ 0 := fun h0 => hne (List.length_eq_zero.1 h0)
  have hf := hfind ⟨env.SortSlice items (env.sortBuilds items)⟩ (args.getD 0 "") ns hsorted
  simp [-List.getD_eq_getElem?_getD, commands.build.NewStatusCommand.RunE, StatusWorld.logged,
    hlist, hlen, hf]

/-- An instance of `findBuild_default_returns_last`: of three builds ordered by creation
time the third is returned, and the command run on the unordered list shows that build. -/
theorem findBuild_default_returns_last_witness :
    findBuild (sampleStatusEnv sampleBuilds)
        ⟨[sampleBuild "1" 100, sampleBuild "2" 200, sampleBuild "3" 300]⟩ (-1)
        "my-image" "default"
      = (.ok (sampleBuild "3" 300, none), []) ∧
    (commands.build.NewStatusCommand.RunE (sampleStatusEnv sampleBuilds) "default" (-1)
        ["my-image"] ⟨[], []⟩).2.state.head? = some "Image:\tregistry.example/my-image:3\n" :=
  ⟨(findBuild_default_returns_last (sampleStatusEnv sampleBuilds)).1
      ⟨[sampleBuild "1" 100, sampleBuild "2" 200, sampleBuild "3" 300]⟩ "my-image" "default"
      (by decide),
    by decide⟩

/-- C12 as first stated fails: the build image has no stack label and the run image cannot
be fetched, yet `MakeStack` returns the error of `GetStackId` for the build image, after a
single `Fetch` call. -/
theorem MakeStack_stack_id_precedes_run_fetch :
    (sampleUnlabelledFetcher.Fetch "registry.example/missing:v1" 1).1
      = .error ⟨"fetch failed: registry.example/missing:v1"⟩ ∧
    Factory.MakeStack sampleDeps
        { sampleFactory with Fetcher := sampleUnlabelledFetcher,
                             BuildImageRef := "registry.example/unlabelled:v1",
                             RunImageRef := "registry.example/missing:v1" }
        "my-stack" ⟨0, []⟩
      = ((none, some ⟨"InvalidStackMetadata"⟩),
          ⟨1, [Call.Fetch "registry.example/unlabelled:v1"]⟩) := by
  constructor <;> rfl

/-- C12, as amended (the StackId of the build image is computed before the run image is
fetched). Once the repository validates and the build image is fetched: when `GetStackId`
fails for the build image, `MakeStack` returns that error and the run image is not fetched,
whatever its fetch would give; when the StackId of the build image is obtained and fetching
the run image fails, `MakeStack` returns that fetch error. -/
theorem MakeStack_build_stack_id_first {σ : Type} (d : Deps) (f : Factory σ) (name : String)
    (w : World σ) (ref : Reference) (buildImage : Image) (s1 : σ)
    (hrepo : d.ParseReference f.Repository [NameOption.WeakValidation] = .ok ref)
    (hfb : f.Fetcher.Fetch f.BuildImageRef w.state = (.ok buildImage, s1)) :
    (∀ e, d.GetStackId buildImage = .error e →
      f.MakeStack d name w = ((none, some e), ⟨s1, w.calls ++ [Call.Fetch f.BuildImageRef]⟩)) ∧
    (∀ a e s2, d.GetStackId buildImage = .ok a →
      f.Fetcher.Fetch f.RunImageRef s1 = (.error e, s2) →
      f.MakeStack d name w = ((none, some e),
        ⟨s2, w.calls ++ [Call.Fetch f.BuildImageRef, Call.Fetch f.RunImageRef]⟩)) := by
  refine ⟨?_, ?_⟩
  · intro e hsb
    simp [Factory.MakeStack, Factory.validate, ImageFetcher.call, hrepo, hfb, hsb]
  · intro a e s2 hsb hfr
    simp [Factory.MakeStack, Factory.validate, ImageFetcher.call, hrepo, hfb, hsb, hfr]

/-- An instance of `MakeStack_build_stack_id_first`: with a labelled build image, the failed
fetch of the run image is the error of `MakeStack`. -/
theorem MakeStack_build_stack_id_first_witness :
    Factory.MakeStack sampleDeps
        { sampleFactory with Fetcher := sampleUnlabelledFetcher,
                             RunImageRef := "registry.example/missing:v1" }
        "my-stack" ⟨0, []⟩
      = ((none, some ⟨"fetch failed: registry.example/missing:v1"⟩),
          ⟨2, [Call.Fetch "registry.example/build:v1",
            Call.Fetch "registry.example/missing:v1"]⟩) :=
  (MakeStack_build_stack_id_first sampleDeps
    { sampleFactory with Fetcher := sampleUnlabelledFetcher,
                         RunImageRef := "registry.example/missing:v1" }
    "my-stack" ⟨0, []⟩ ⟨"canonical.example", "repo", "latest"⟩ sampleBuildImage 1
    (by decide) (by decide)).2 "bionic" ⟨"fetch failed: registry.example/missing:v1"⟩ 2
    (by decide) (by decide)

/-- C13 (a build number selects the first build carrying it). For a build number `n` other
than -1: on a list whose builds before the first one labelled `n` all carry labels that parse
to other numbers, `findBuild` returns that first build with a nil error, having parsed the
labels up to it; every build `findBuild` returns with a nil error is a build of the list whose
label parses to `n`; and when every label parses and none is `n`, `findBuild` returns the empty
`Build` and the error `build "n" for image "<img>" not found in "<namespace>" namespace`. -/
theorem findBuild_numbered {σ : Type} (env : StatusEnv σ) (n : Int) (img ns : String)
    (hn : n ≠ -1) :
    (∀ (pre : List Build) (b : Build) (post : List Build),
      (∀ x ∈ pre, ∃ v, env.Atoi (mapIndex x.Labels env.BuildNumberLabel) = .ok v ∧ v ≠ n) →
      env.Atoi (mapIndex b.Labels env.BuildNumberLabel) = .ok n →
      findBuild env ⟨pre ++ b :: post⟩ n img ns
        = (.ok (b, none), (pre ++ [b]).map
            (fun x => StatusCall.Atoi (mapIndex x.Labels env.BuildNumberLabel)))) ∧
    (∀ (items : List Build) (b : Build),
      (findBuild env ⟨items⟩ n img ns).1 = .ok (b, none) →
      b ∈ items ∧ env.Atoi (mapIndex b.Labels env.BuildNumberLabel) = .ok n) ∧
    (∀ (items : List Build),
      (∀ x ∈ items, ∃ v, env.Atoi (mapIndex x.Labels env.BuildNumberLabel) = .ok v ∧ v ≠ n) →
      findBuild env ⟨items⟩ n img ns
        = (.ok (Build.zero, some ⟨"build \"" ++ toString n ++ "\" for image \"" ++ img ++
            "\" not found in \"" ++ ns ++ "\" namespace"⟩),
          items.map (fun x => StatusCall.Atoi (mapIndex x.Labels env.BuildNumberLabel)))) := by
  refine ⟨?_, ?_, ?_⟩
  · intro pre b post hpre hb
    simp [findBuild, hn, findBuild_loop_first_match env n pre b post hpre hb]
  · intro items b h
    unfold findBuild at h
    simp only [beq_iff_eq, hn, if_false] at h
    rcases hl : findBuild.loop env n items with ⟨_ | r, calls⟩
    · simp [hl] at h
    · simp [hl] at h
      apply findBuild_loop_returned env n items b
      rw [hl, h]
  · intro items hall
    simp [findBuild, hn, findBuild_loop_no_match env n items hall]

/-- An instance of `findBuild_numbered`: build number 3 is found behind build number 2, after
two labels were parsed. -/
theorem findBuild_numbered_witness :
    findBuild (sampleStatusEnv sampleBuilds) ⟨sampleBuilds⟩ 3 "my-image" "default"
      = (.ok (sampleBuild "3" 300, none), [StatusCall.Atoi "2", StatusCall.Atoi "3"]) :=
  (findBuild_numbered (sampleStatusEnv sampleBuilds) 3 "my-image" "default" (by decide)).1
    [sampleBuild "2" 200] (sampleBuild "3" 300) [sampleBuild "1" 100]
    (by
      intro x hx
      rw [List.mem_singleton] at hx
      subst hx
      exact ⟨2, by decide, by decide⟩)
    (by decide)

/-- C14 (adding to a missing store fails and does nothing else). Once the client set and the
command helper are built, `clusterstore add` on a store for which `Get(name)` reports NotFound
returns the error `ClusterStore '<name>' does not exist` right after the `Get` call: the
canonical repository is not read (no factory is built), and neither `AddToStore` nor `Update`
is called. Any other error of `Get` is returned unchanged, again right after the call. -/
theorem add_to_missing_store_fails {σ : Type} (env : CmdEnv σ) (buildpackages : List String)
    (tlsCfg : TLSConfig) (args : List String) (w : CmdWorld σ)
    (cs : ClientSet σ) (ch : CommandHelper σ) (s1 s2 : σ)
    (hcs : env.GetClientSet "" w.state = (.ok cs, s1))
    (hch : env.NewCommandHelper s1 = (.ok ch, s2)) :
    (∀ e s3, cs.ClusterStoresGet (args.getD 0 "") s2 = (.error e, s3) →
      env.IsNotFound e = true →
      commands.clusterstore.NewAddCommand.RunE env buildpackages tlsCfg args w
        = (some ⟨"ClusterStore '" ++ args.getD 0 "" ++ "' does not exist"⟩,
          ⟨s3, w.calls ++ [CmdCall.GetClientSet "", CmdCall.NewCommandHelper,
            CmdCall.ClusterStoresGet (args.getD 0 "")]⟩) ∧
      CmdCall.GetCanonicalRepository ∉ newCalls w
        (commands.clusterstore.NewAddCommand.RunE env buildpackages tlsCfg args w).2 ∧
      (∀ c ∈ newCalls w
          (commands.clusterstore.NewAddCommand.RunE env buildpackages tlsCfg args w).2,
        c.isUpdatePath = false)) ∧
    (∀ e s3, cs.ClusterStoresGet (args.getD 0 "") s2 = (.error e, s3) →
      env.IsNotFound e = false →
      commands.clusterstore.NewAddCommand.RunE env buildpackages tlsCfg args w
        = (some e, ⟨s3, w.calls ++ [CmdCall.GetClientSet "", CmdCall.NewCommandHelper,
            CmdCall.ClusterStoresGet (args.getD 0 "")]⟩)) := by
  refine ⟨?_, ?_⟩
  · intro e s3 hget hnf
    have hrun : commands.clusterstore.NewAddCommand.RunE env buildpackages tlsCfg args w
        = (some ⟨"ClusterStore '" ++ args.getD 0 "" ++ "' does not exist"⟩,
          ⟨s3, w.calls ++ [CmdCall.GetClientSet "", CmdCall.NewCommandHelper,
            CmdCall.ClusterStoresGet (args.getD 0 "")]⟩) := by
      simp [-List.getD_eq_getElem?_getD, commands.clusterstore.NewAddCommand.RunE,
        CmdWorld.logged, hcs, hch, hget, hnf]
    refine ⟨hrun, ?_, ?_⟩
    · rw [hrun]
      simp [newCalls]
    · rw [hrun]
      simp [newCalls, CmdCall.isUpdatePath]
  · intro e s3 hget hnf
    simp [-List.getD_eq_getElem?_getD, commands.clusterstore.NewAddCommand.RunE,
      CmdWorld.logged, hcs, hch, hget, hnf]

/-- An instance of `add_to_missing_store_fails`: adding to `my-store` on an empty cluster. -/
theorem add_to_missing_store_fails_witness :
    commands.clusterstore.NewAddCommand.RunE (sampleCmdEnv (sampleCommandHelper false))
        ["bp-a"] ⟨"", true⟩ ["my-store"] ⟨[], []⟩
      = (some ⟨"ClusterStore 'my-store' does not exist"⟩,
          ⟨[], [CmdCall.GetClientSet "", CmdCall.NewCommandHelper,
            CmdCall.ClusterStoresGet "my-store"]⟩) :=
  ((add_to_missing_store_fails (sampleCmdEnv (sampleCommandHelper false)) ["bp-a"] ⟨"", true⟩
    ["my-store"] ⟨[], []⟩ sampleClientSet (sampleCommandHelper false) [] [] rfl rfl).1
    ⟨"not found"⟩ [] rfl rfl).1

/-- C15 (the build status command never indexes an empty list). When the listed builds are
empty the command returns the error `no builds for image "<name>" found in "<namespace>"
namespace` right after the `List` call, without calling `findBuild`. When they are not, and
`sort.Slice` keeps the length of the slice, the command does not panic and every `findBuild`
call it logs is the one on the sorted list, which is not empty. On a non-empty list
`findBuild` does not panic, and its read `Items[len(Items)-1]` yields the last element; on an
empty list that read is the panic the command avoids. -/
theorem status_never_indexes_empty_list {σ : Type} (env : StatusEnv σ) (ns : String)
    (buildNumber : Int) (args : List String) (w : StatusWorld σ) :
    (∀ s1, env.BuildsList ns (env.ImageLabel ++ "=" ++ args.getD 0 "") w.state
        = (.ok ⟨[]⟩, s1) →
      commands.build.NewStatusCommand.RunE env ns buildNumber args w
        = (.ok (some ⟨"no builds for image \"" ++ args.getD 0 "" ++ "\" found in \"" ++ ns ++
            "\" namespace"⟩),
          ⟨s1, w.calls ++
            [StatusCall.BuildsList ns (env.ImageLabel ++ "=" ++ args.getD 0 "")]⟩)) ∧
    (∀ items s1, env.BuildsList ns (env.ImageLabel ++ "=" ++ args.getD 0 "") w.state
        = (.ok ⟨items⟩, s1) →
      items ≠ [] →
      (env.SortSlice items (env.sortBuilds items)).length = items.length →
      (∃ r, (commands.build.NewStatusCommand.RunE env ns buildNumber args w).1 = .ok r) ∧
      ∀ l n, StatusCall.findBuild l n ∈
          newStatusCalls w (commands.build.NewStatusCommand.RunE env ns buildNumber args w).2 →
        l = env.SortSlice items (env.sortBuilds items) ∧ l ≠ []) ∧
    (∀ (buildList : BuildList) (n : Int) (img nsp : String) (h : buildList.Items ≠ []),
      (∃ r, (findBuild env buildList n img nsp).1 = .ok r) ∧
      sliceIndex buildList.Items ((buildList.Items.length : Int) - 1)
        = .ok (buildList.Items.getLast h)) ∧
    (∀ img nsp, ∃ p, (findBuild env ⟨[]⟩ (-1) img nsp).1 = .error p) := by
  refine ⟨?_, ?_, ?_, ?_⟩
  · intro s1 hlist
    simp [-List.getD_eq_getElem?_getD, commands.build.NewStatusCommand.RunE,
      StatusWorld.logged, hlist]
  · intro items s1 hlist hne hlen
    have hlen0 : items.length ≠ 0 := fun h0 => hne (List.length_eq_zero.1 h0)
    have hsorted : env.SortSlice items (env.sortBuilds items) ≠ [] := by
      intro h0
      rw [h0] at hlen
      exact hlen0 hlen.symm
    obtain ⟨r, hr⟩ := findBuild_no_panic env ⟨env.SortSlice items (env.sortBuilds items)⟩
      buildNumber (args.getD 0 "") ns hsorted
    have hfc := findBuild_calls env ⟨env.SortSlice items (env.sortBuilds items)⟩
      buildNumber (args.getD 0 "") ns
    rcases r with ⟨bld, _ | err⟩
    · obtain ⟨l, hl, hk⟩ := displayBuildStatus_trace env bld
        ⟨s1, w.calls ++ [StatusCall.BuildsList ns (env.ImageLabel ++ "=" ++ args.getD 0 "")] ++
          StatusCall.findBuild (env.SortSlice items (env.sortBuilds items)) buildNumber ::
          (findBuild env ⟨env.SortSlice items (env.sortBuilds items)⟩ buildNumber
            (args.getD 0 "") ns).2⟩
      refine ⟨⟨_, by
        simp only [commands.build.NewStatusCommand.RunE, StatusWorld.logged, hlist,
          beq_iff_eq, hlen0, if_false, hr]
        rfl⟩, ?_⟩
      intro l0 n hmem
      simp only [commands.build.NewStatusCommand.RunE, StatusWorld.logged, hlist,
        beq_iff_eq, hlen0, if_false, hr, newStatusCalls] at hmem
      rw [hl] at hmem
      simp only [List.append_assoc, List.drop_left] at hmem
      simp only [List.singleton_append, List.mem_cons, List.mem_append, reduceCtorEq,
        StatusCall.findBuild.injEq, false_or] at hmem
      rcases hmem with (h | h) | h
      · exact ⟨h.1, h.1 ▸ hsorted⟩
      · exact absurd (hfc _ h) (by simp [StatusCall.isFindBuild])
      · exact absurd (hk _ h) (by simp [StatusCall.isFindBuild])
    · refine ⟨⟨_, by
        simp only [commands.build.NewStatusCommand.RunE, StatusWorld.logged, hlist,
          beq_iff_eq, hlen0, if_false, hr]
        rfl⟩, ?_⟩
      intro l0 n hmem
      simp only [commands.build.NewStatusCommand.RunE, StatusWorld.logged, hlist,
        beq_iff_eq, hlen0, if_false, hr, newStatusCalls, List.append_assoc,
        List.drop_left] at hmem
      simp only [List.singleton_append, List.mem_cons, List.mem_append, reduceCtorEq,
        StatusCall.findBuild.injEq, false_or] at hmem
      rcases hmem with h | h
      · exact ⟨h.1, h.1 ▸ hsorted⟩
      · exact absurd (hfc _ h) (by simp [StatusCall.isFindBuild])
  · intro buildList n img nsp h
    exact ⟨findBuild_no_panic env buildList n img nsp h, sliceIndex_last buildList.Items h⟩
  · intro img nsp
    exact ⟨⟨"runtime error: index out of range"⟩, by simp [findBuild, sliceIndex]⟩

/-- An instance of `status_never_indexes_empty_list`: an image without builds gives the
error of the command, and `findBuild` is not called. -/
theorem status_never_indexes_empty_list_witness :
    commands.build.NewStatusCommand.RunE (sampleStatusEnv []) "default" (-1) ["my-image"]
        ⟨[], []⟩
      = (.ok (some ⟨"no builds for image \"my-image\" found in \"default\" namespace"⟩),
          ⟨[], [StatusCall.BuildsList "default" "image.kpack.io/image=my-image"]⟩) :=
  (status_never_indexes_empty_list (sampleStatusEnv []) "default" (-1) ["my-image"]
    ⟨[], []⟩).1 [] rfl

end Kpack
